import Mathlib

/-!
# OpenKneeboard: the D3D12 viewer renderer and the sprite compositor

A shallow embedding of

* `D3D12Renderer::Render` (`src/utilities/viewer-d3d12.cpp`, lines 78-137),
* the declarations of `SpriteBatch` (`src/lib/include/OpenKneeboard/Vulkan/SpriteBatch.h`):
  `Vertex::Position`, `Sprite`, `MaxSpritesPerBatch`,
* `GetHookInstallState` and `CheckDCSHooks` (`src/app/app-winui3/CheckDCSHooks.cpp`,
  lines 52-169), over a file system that maps paths to directories and regular files,

followed by the properties established about them.

Calls into Direct3D are modelled as events appended to a trace; the `HRESULT` each
fallible call returns is supplied by an environment, and `winrt::check_hresult`
turns a failing one into a thrown `hresult_error` that leaves the renderer's
members as they were at the point of the throw.

The bodies of the sprite batch's `Begin`, `Draw` and `End` are not among the
sources; they follow the written specification of the compositor (an Idle/Began
state machine with a batch of at most `MaxSpritesPerBatch` sprites), and a call
that breaks the state machine's contract terminates the process.
-/

namespace OpenKneeboard

/-! ## Basic types -/

/-- A Windows `HRESULT` (`typedef LONG HRESULT`, `fatal.hpp`). -/
abbrev HRESULT := Int

/-- A Windows `HANDLE`, compared by value; `0` is the null handle. -/
abbrev HANDLE := Nat

/-- The `FAILED(hr)` test used by `winrt::check_hresult`: negative values fail. -/
def FAILED (hr : HRESULT) : Bool := decide (hr < 0)

/-- The modulus of `uint64_t` arithmetic. -/
def UINT64_MOD : Nat := 2 ^ 64

/-- `PixelSize` of `OpenKneeboard/Pixels.h` (width and height in pixels). -/
structure PixelSize where
  mWidth : Nat
  mHeight : Nat
deriving DecidableEq, Repr

/-- `PixelPoint` of `OpenKneeboard/Pixels.h`. -/
structure PixelPoint where
  mX : Nat
  mY : Nat
deriving DecidableEq, Repr

/-- `PixelRect` of `OpenKneeboard/Pixels.h`: an offset and a size. -/
structure PixelRect where
  mOffset : PixelPoint
  mSize : PixelSize
deriving DecidableEq, Repr

/-- A colour of `colors.h`: four channels. No arithmetic is done on them here. -/
structure Color where
  mR : Nat
  mG : Nat
  mB : Nat
  mA : Nat
deriving DecidableEq, Repr

/-- `Colors::White`, the default tint of `SpriteBatch::Draw`. -/
def Colors.White : Color := ⟨1, 1, 1, 1⟩

/-! ## `SpriteBatch::Vertex::Position` (SpriteBatch.h, lines 99-108) -/

/-- A `std::array<float, 2>`; the carrier `α` stands for `float`, on which the
constructors below do no arithmetic. -/
structure Array2 (α : Type) where
  m0 : α
  m1 : α
deriving DecidableEq, Repr

/-- The class `Position : public std::array<float, 4>`. -/
structure Position (α : Type) where
  m0 : α
  m1 : α
  m2 : α
  m3 : α
deriving DecidableEq, Repr

/-- The constructor `Position(const std::array<float, 2>& pos_2d)`, line 102:
`std::array<float, 4> {pos_2d[0], pos_2d[0], 0, 1}`. -/
def Position.fromArray {α : Type} [Zero α] [One α] (pos_2d : Array2 α) : Position α :=
  ⟨pos_2d.m0, pos_2d.m0, 0, 1⟩

/-- The constructor `Position(float x, float y)`, line 106:
`std::array<float, 4> {x, y, 0, 1}`. -/
def Position.fromXY {α : Type} [Zero α] [One α] (x y : α) : Position α :=
  ⟨x, y, 0, 1⟩

/-! ## The sprite compositor -/

/-- The struct `SpriteBatch::Sprite` (SpriteBatch.h, lines 119-125). -/
structure Sprite where
  mSource : Nat
  mSourceSize : PixelSize
  mSourceRect : PixelRect
  mDestRect : PixelRect
  mColor : Color
deriving DecidableEq, Repr

/-- The constant `VerticesPerSprite` (SpriteBatch.h, line 127). -/
def VerticesPerSprite : Nat := 6

/-- The constant `MaxSpritesPerBatch` (SpriteBatch.h, line 128). -/
def MaxSpritesPerBatch : Nat := 16

/-- The constant `MaxVerticesPerBatch` (SpriteBatch.h, lines 129-130), a `uint8_t`. -/
def MaxVerticesPerBatch : Nat := (VerticesPerSprite * MaxSpritesPerBatch) % 256

/-- The members of `SpriteBatch` the compositor's state machine lives in:
`mTargetSize` is `none` while Idle and the bound target's size while Began;
`mSprites` is the batch in progress. `mFlushed` records, oldest first, the
batches handed to the GPU so far (one entry per flush). -/
structure SpriteBatch where
  mTargetSize : Option PixelSize
  mSprites : List Sprite
  mFlushed : List (List Sprite)
deriving DecidableEq, Repr

/-- Modelled from the spec: the bodies of `SpriteBatch`'s member functions are not
among the sources, only their declarations are. A flush hands the batch in
progress to the GPU as one draw call and leaves the batch empty. -/
def SpriteBatch.Flush (sb : SpriteBatch) : SpriteBatch :=
  { sb with mSprites := [], mFlushed := sb.mFlushed ++ [sb.mSprites] }

/-- Modelled from the spec: the body of `SpriteBatch::Begin` is not among the
sources. "Binds the destination surface ... Resets the in-progress batch to
empty"; "Begin called while already Began ... is a programmer (contract)
error", rendered as `none`. -/
def SpriteBatch.Begin (sb : SpriteBatch) (size : PixelSize) : Option SpriteBatch :=
  match sb.mTargetSize with
  | some _ => none
  | none => some { sb with mTargetSize := some size, mSprites := [] }

/-- Modelled from the spec: the body of `SpriteBatch::Draw` is not among the
sources. "Appends a Sprite to the in-progress batch ... If the batch is at
capacity, flush the current batch (issue the draw call) before appending";
Draw while Idle is a contract error, rendered as `none`. -/
def SpriteBatch.Draw (sb : SpriteBatch) (sprite : Sprite) : Option SpriteBatch :=
  match sb.mTargetSize with
  | none => none
  | some _ =>
    let sb1 := if MaxSpritesPerBatch ≤ sb.mSprites.length then sb.Flush else sb
    some { sb1 with mSprites := sb1.mSprites ++ [sprite] }

/-- Modelled from the spec: the body of `SpriteBatch::End` is not among the
sources. "Flushes any remaining non-empty batch, finalizes the command
sequence for the bound target"; "ending with zero accumulated sprites since
Begin is a valid no-op: no draw call is issued"; End while Idle is a contract
error, rendered as `none`. -/
def SpriteBatch.End (sb : SpriteBatch) : Option SpriteBatch :=
  match sb.mTargetSize with
  | none => none
  | some _ =>
    let sb1 := if sb.mSprites = [] then sb else sb.Flush
    some { sb1 with mTargetSize := none }

/-- A run of `Draw` calls, one per sprite, in the order given. -/
def SpriteBatch.DrawAll : SpriteBatch → List Sprite → Option SpriteBatch
  | sb, [] => some sb
  | sb, sprite :: rest =>
    match sb.Draw sprite with
    | none => none
    | some sb1 => SpriteBatch.DrawAll sb1 rest

/-- One `Begin`, then one `Draw` per sprite, then one `End`. -/
def SpriteBatch.BeginDrawAllEnd (sb : SpriteBatch) (size : PixelSize)
    (sprites : List Sprite) : Option SpriteBatch :=
  match sb.Begin size with
  | none => none
  | some sb1 =>
    match sb1.DrawAll sprites with
    | none => none
    | some sb2 => sb2.End

/-! ## `D3D12Renderer` (viewer-d3d12.cpp) -/

/-- An interface pointer returned by a successful `ID3D12Device::OpenSharedHandle`:
the shared handle it was opened from, and the serial number the device gave the
object (every successful creation yields a fresh object). -/
structure SharedObject where
  mHandle : HANDLE
  mId : Nat
deriving DecidableEq, Repr

/-- What `Render` reads from its source `SHM::D3D12::Texture`:
`GetD3D12ShaderResourceViewHeap()`, `GetD3D12ShaderResourceViewGPUHandle()` and
`GetDimensions()`. -/
structure Texture where
  mShaderResourceViewHeap : Nat
  mShaderResourceViewGPUHandle : Nat
  mDimensions : PixelSize
deriving DecidableEq, Repr

/-- The interface a shared handle is opened as: `com_ptr<T>::capture` passes
`guid_of<T>()` to `OpenSharedHandle`, so `mDestTexture` asks for an
`ID3D12Resource` and `mFence` for an `ID3D12Fence`. -/
inductive Interface where
  | ID3D12Resource
  | ID3D12Fence
deriving DecidableEq, Repr

/-- The calls `Render` can make on the device, the command list, the sprite batch
and the command queue, with their arguments. `Release` is a `com_ptr` giving up
the reference it holds. `FenceSetEventOnCompletion` is the CPU-side way of
waiting for a fence (`ID3D12Fence::SetEventOnCompletion` and a blocking wait on
the event), as opposed to the GPU-side `QueueWait` (`ID3D12CommandQueue::Wait`). -/
inductive Event where
  | Release (object : SharedObject)
  | OpenSharedHandle (handle : HANDLE) (riid : Interface)
  | CreateRenderTargetView (resource : Option SharedObject)
  | CommandListReset
  | CreateCommandList
  | SetDescriptorHeaps (heap : Nat)
  | SpriteBatchBegin (size : PixelSize)
  | SpriteBatchDraw (source : Nat) (sourceSize : PixelSize) (sourceRect : PixelRect)
      (destRect : PixelRect)
  | SpriteBatchEnd
  | CommandListClose
  | QueueWait (fence : Option SharedObject) (value : Nat)
  | QueueExecuteCommandLists (lists : List (Option Nat))
  | QueueSignal (fence : Option SharedObject) (value : Nat)
  | FenceSetEventOnCompletion (fence : Option SharedObject) (value : Nat)
deriving DecidableEq, Repr

/-- The members of `D3D12Renderer` that `Render` reads or writes.
`mDeviceObjects` counts the objects `mDevice` has created so far and numbers the
next one; `mCommandList` holds the serial number of the command list once it
has been created. -/
structure D3D12Renderer where
  mDeviceObjects : Nat
  mSpriteBatch : SpriteBatch
  mDestHandle : HANDLE
  mDestTexture : Option SharedObject
  mFenceHandle : HANDLE
  mFence : Option SharedObject
  mCommandList : Option Nat
deriving DecidableEq, Repr

/-- The `HRESULT`s the fallible Direct3D calls of one `Render` call return.
`ExecuteCommandLists`, `CreateRenderTargetView` and `SetDescriptorHeaps` return
`void`. -/
structure Env where
  OpenSharedHandle : HANDLE → HRESULT
  CreateCommandList : HRESULT
  Reset : HRESULT
  Close : HRESULT
  Wait : HRESULT
  Signal : HRESULT

/-- How a call ends: it returns a value, it throws the `winrt::hresult_error`
that `winrt::check_hresult` raises for a failing `HRESULT`, or the process is
terminated for a contract violation (`fatal`). -/
inductive Result (α : Type) where
  | ok (value : α)
  | hresult_error (hr : HRESULT)
  | fatal
deriving DecidableEq, Repr

/-- The outcome of running a piece of `Render`: how it ended, the renderer's
members at that point, and the calls it made, oldest first. -/
structure Run (α : Type) where
  result : Result α
  state : D3D12Renderer
  trace : List Event
deriving DecidableEq, Repr

/-- Code running against the renderer's members. -/
def RenderM (α : Type) : Type := D3D12Renderer → Run α

/-- Sequencing: the second part runs only if the first returned, from the members
the first left behind; a throw or a termination ends the run there. -/
def RenderM.bind {α β : Type} (m : RenderM α) (f : α → RenderM β) : RenderM β :=
  fun s =>
    match m s with
    | ⟨Result.ok a, s1, t1⟩ =>
      match f a s1 with
      | ⟨r, s2, t2⟩ => ⟨r, s2, t1 ++ t2⟩
    | ⟨Result.hresult_error hr, s1, t1⟩ => ⟨Result.hresult_error hr, s1, t1⟩
    | ⟨Result.fatal, s1, t1⟩ => ⟨Result.fatal, s1, t1⟩

instance : Monad RenderM where
  pure a := fun s => ⟨Result.ok a, s, []⟩
  bind := RenderM.bind

/-- Read the members. -/
def getState : RenderM D3D12Renderer := fun s => ⟨Result.ok s, s, []⟩

/-- Write the members. -/
def modifyState (f : D3D12Renderer → D3D12Renderer) : RenderM Unit :=
  fun s => ⟨Result.ok (), f s, []⟩

/-- Make a call that cannot fail. -/
def emit (e : Event) : RenderM Unit := fun s => ⟨Result.ok (), s, [e]⟩

/-- The function `winrt::check_hresult`: throws for a failing `HRESULT`. -/
def check_hresult (hr : HRESULT) : RenderM Unit :=
  fun s => if FAILED hr then ⟨Result.hresult_error hr, s, []⟩ else ⟨Result.ok (), s, []⟩

/-- A `com_ptr` giving up the reference it holds, if it holds one. -/
def releaseHeld : Option SharedObject → List Event
  | some object => [Event.Release object]
  | none => []

/-- The statement `mDestTexture = nullptr;` (line 89): the `com_ptr` releases the
reference it holds, if any, and becomes empty. -/
def resetDestTexture : RenderM Unit :=
  fun s =>
    match s.mDestTexture with
    | some object => ⟨Result.ok (), { s with mDestTexture := none }, [Event.Release object]⟩
    | none => ⟨Result.ok (), s, []⟩

/-- Modelled from the spec: `winrt::com_ptr::capture` and the `put_void()` through
which it hands the callee the address of the raw pointer are not among the
sources, so what becomes of a reference the pointer still holds follows the
ownership discipline of the specification: "the cache exclusively owns
imported GPU objects and must release the previous generation before
installing a new one". The reference held is released before the callee is
called. -/
def comPtrPut (held : Option SharedObject) : List Event := releaseHeld held

/-- The statement `mDestTexture.capture(mDevice, &ID3D12Device::OpenSharedHandle,
destTextureHandle);` (lines 90-91). `com_ptr::capture` hands the callee
`put_void()`, the address of the raw pointer, and checks the `HRESULT`: on
success the pointer is the freshly opened object, on failure it is null (the
COM rule for out-parameters) and `hresult_error` is thrown. What was held
before goes the way of `comPtrPut`; here nothing is, after line 89. -/
def captureDestTexture (env : Env) (handle : HANDLE) : RenderM Unit :=
  fun s =>
    if FAILED (env.OpenSharedHandle handle) then
      ⟨Result.hresult_error (env.OpenSharedHandle handle),
        { s with mDestTexture := none },
        comPtrPut s.mDestTexture ++ [Event.OpenSharedHandle handle Interface.ID3D12Resource]⟩
    else
      ⟨Result.ok (),
        { s with mDestTexture := some ⟨handle, s.mDeviceObjects⟩,
                 mDeviceObjects := s.mDeviceObjects + 1 },
        comPtrPut s.mDestTexture ++ [Event.OpenSharedHandle handle Interface.ID3D12Resource]⟩

/-- The statement `mFence.capture(mDevice, &ID3D12Device::OpenSharedHandle,
fenceHandle);` (line 96); see `captureDestTexture`. No statement of `Render`
empties `mFence` before it: the fence held before goes the way of
`comPtrPut`. -/
def captureFence (env : Env) (handle : HANDLE) : RenderM Unit :=
  fun s =>
    if FAILED (env.OpenSharedHandle handle) then
      ⟨Result.hresult_error (env.OpenSharedHandle handle),
        { s with mFence := none },
        comPtrPut s.mFence ++ [Event.OpenSharedHandle handle Interface.ID3D12Fence]⟩
    else
      ⟨Result.ok (),
        { s with mFence := some ⟨handle, s.mDeviceObjects⟩,
                 mDeviceObjects := s.mDeviceObjects + 1 },
        comPtrPut s.mFence ++ [Event.OpenSharedHandle handle Interface.ID3D12Fence]⟩

/-- The statement `mCommandList.capture(mDevice, &ID3D12Device::CreateCommandList,
...);` (lines 107-113), reached only while `mCommandList` is empty. -/
def captureCommandList (env : Env) : RenderM Unit :=
  fun s =>
    if FAILED env.CreateCommandList then
      ⟨Result.hresult_error env.CreateCommandList, s, [Event.CreateCommandList]⟩
    else
      ⟨Result.ok (),
        { s with mCommandList := some s.mDeviceObjects,
                 mDeviceObjects := s.mDeviceObjects + 1 },
        [Event.CreateCommandList]⟩

/-- A call on `mSpriteBatch`: the call is recorded, and a contract violation
terminates the process. -/
def callSpriteBatch (e : Event) (f : SpriteBatch → Option SpriteBatch) : RenderM Unit :=
  fun s =>
    match f s.mSpriteBatch with
    | some sb => ⟨Result.ok (), { s with mSpriteBatch := sb }, [e]⟩
    | none => ⟨Result.fatal, s, [e]⟩

/-- Lines 88-93 of `Render`: the destination texture is opened anew when the
handle supplied differs from the one stored. -/
def Render.importDestTexture (env : Env) (destTextureHandle : HANDLE) : RenderM Unit := do
  if destTextureHandle ≠ (← getState).mDestHandle then
    resetDestTexture
    captureDestTexture env destTextureHandle
    modifyState fun s => { s with mDestHandle := destTextureHandle }

/-- Lines 95-98 of `Render`: the fence is opened anew when the handle supplied
differs from the one stored. -/
def Render.importFence (env : Env) (fenceHandle : HANDLE) : RenderM Unit := do
  if fenceHandle ≠ (← getState).mFenceHandle then
    captureFence env fenceHandle
    modifyState fun s => { s with mFenceHandle := fenceHandle }

/-- Lines 100-114 of `Render`: the render target view of the destination texture
is created, and the command list is reset, or created on the first call. -/
def Render.prepareCommandList (env : Env) : RenderM Unit := do
  emit (Event.CreateRenderTargetView (← getState).mDestTexture)
  if (← getState).mCommandList.isSome then
    emit Event.CommandListReset
    check_hresult env.Reset
  else
    captureCommandList env

/-- Lines 116-125 of `Render`: the source's descriptor heap is set, and the sprite
batch is driven through `Begin`, one `Draw` (with the default tint) and `End`. -/
def Render.composite (sourceTexture : Texture) (sourceRect : PixelRect)
    (destTextureDimensions : PixelSize) (destRect : PixelRect) : RenderM Unit := do
  emit (Event.SetDescriptorHeaps sourceTexture.mShaderResourceViewHeap)
  callSpriteBatch (Event.SpriteBatchBegin destTextureDimensions)
    fun sb => sb.Begin destTextureDimensions
  callSpriteBatch
    (Event.SpriteBatchDraw sourceTexture.mShaderResourceViewGPUHandle
      sourceTexture.mDimensions sourceRect destRect)
    fun sb => sb.Draw
      ⟨sourceTexture.mShaderResourceViewGPUHandle, sourceTexture.mDimensions,
        sourceRect, destRect, Colors.White⟩
  callSpriteBatch Event.SpriteBatchEnd fun sb => sb.End

/-- Lines 127-136 of `Render`: the command list is closed, the queue waits for the
fence at `fenceValueIn`, executes the command list and signals the fence with
`fenceValueIn + 1`, a `uint64_t`, which is returned. -/
def Render.submit (env : Env) (fenceValueIn : Nat) : RenderM Nat := do
  emit Event.CommandListClose
  check_hresult env.Close
  emit (Event.QueueWait (← getState).mFence fenceValueIn)
  check_hresult env.Wait
  emit (Event.QueueExecuteCommandLists [(← getState).mCommandList])
  let fenceValueOut := (fenceValueIn + 1) % UINT64_MOD
  emit (Event.QueueSignal (← getState).mFence fenceValueOut)
  check_hresult env.Signal
  return fenceValueOut

/-- The function `D3D12Renderer::Render` (viewer-d3d12.cpp, lines 78-137), its
statements in source order. -/
def Render (env : Env) (sourceTexture : Texture) (sourceRect : PixelRect)
    (destTextureHandle : HANDLE) (destTextureDimensions : PixelSize)
    (destRect : PixelRect) (fenceHandle : HANDLE) (fenceValueIn : Nat) : RenderM Nat := do
  Render.importDestTexture env destTextureHandle
  Render.importFence env fenceHandle
  Render.prepareCommandList env
  Render.composite sourceTexture sourceRect destTextureDimensions destRect
  Render.submit env fenceValueIn

/-- The arguments of one `Render` call, with the environment it runs in. -/
structure RenderCall where
  env : Env
  sourceTexture : Texture
  sourceRect : PixelRect
  destTextureHandle : HANDLE
  destTextureDimensions : PixelSize
  destRect : PixelRect
  fenceHandle : HANDLE
  fenceValueIn : Nat

/-- Run one call. -/
def RenderCall.run (c : RenderCall) (s : D3D12Renderer) : Run Nat :=
  Render c.env c.sourceTexture c.sourceRect c.destTextureHandle c.destTextureDimensions
    c.destRect c.fenceHandle c.fenceValueIn s

/-- Run a sequence of calls on one renderer, each from the members the one
before left behind (a thrown `hresult_error` reaches the caller, who may call
again); nothing runs after the process was terminated. -/
def RenderAll : D3D12Renderer → List RenderCall → List (Run Nat)
  | _, [] => []
  | s, c :: rest =>
    match c.run s with
    | ⟨Result.fatal, s1, t1⟩ => [⟨Result.fatal, s1, t1⟩]
    | r => r :: RenderAll r.state rest

/-! ## Observations on traces, and sample inputs -/

/-- The calls on the command queue. -/
def Event.isQueueOp : Event → Bool
  | Event.QueueWait _ _ => true
  | Event.QueueExecuteCommandLists _ => true
  | Event.QueueSignal _ _ => true
  | _ => false

/-- The CPU-side waits. -/
def Event.isCpuWait : Event → Bool
  | Event.FenceSetEventOnCompletion _ _ => true
  | _ => false

/-- The calls on the sprite batch. -/
def Event.isSpriteBatchCall : Event → Bool
  | Event.SpriteBatchBegin _ => true
  | Event.SpriteBatchDraw _ _ _ _ => true
  | Event.SpriteBatchEnd => true
  | _ => false

/-- The calls of `OpenSharedHandle` asking for the given interface. -/
def Event.isOpenAs (riid : Interface) : Event → Bool
  | Event.OpenSharedHandle _ r => decide (r = riid)
  | _ => false

/-- The three calls `Render` makes on the sprite batch, by name. -/
inductive SpriteBatchCall where
  | Begin
  | Draw
  | End
deriving DecidableEq, Repr

/-- The name of a call on the sprite batch; `none` for any other call. -/
def Event.spriteBatchCall : Event → Option SpriteBatchCall
  | Event.SpriteBatchBegin _ => some SpriteBatchCall.Begin
  | Event.SpriteBatchDraw _ _ _ _ => some SpriteBatchCall.Draw
  | Event.SpriteBatchEnd => some SpriteBatchCall.End
  | _ => none

/-- A renderer that has not rendered yet: nothing opened, no handle stored, no
command list, the sprite batch Idle. -/
def Example.fresh : D3D12Renderer := ⟨0, ⟨none, [], []⟩, 0, none, 0, none, none⟩

/-- An environment in which every call succeeds (`S_OK`). -/
def Example.allOk : Env := ⟨fun _ => 0, 0, 0, 0, 0, 0⟩

/-- A source texture of 100 by 100 pixels. -/
def Example.source : Texture := ⟨7, 8, ⟨100, 100⟩⟩

/-- A rectangle of 10 by 10 pixels at `(10, 10)`. -/
def Example.rect : PixelRect := ⟨⟨10, 10⟩, ⟨10, 10⟩⟩

/-- A call with destination handle `1` and fence handle `2` in which every call
into Direct3D succeeds. -/
def Example.call : RenderCall :=
  ⟨Example.allOk, Example.source, Example.rect, 1, ⟨50, 50⟩, Example.rect, 2, 5⟩

/-- The call `Example.call` in an environment in which `ID3D12CommandQueue::Wait`
fails and every other call succeeds. -/
def Example.waitFails : RenderCall :=
  { Example.call with env := { Example.allOk with Wait := -1 } }

/-- The call `Example.call` with other handles: destination handle `3` and fence
handle `4`. -/
def Example.otherHandles : RenderCall :=
  { Example.call with destTextureHandle := 3, fenceHandle := 4 }

/-- The call `Example.otherHandles` in an environment in which `OpenSharedHandle`
fails for the destination handle `3` and every other call succeeds. -/
def Example.destOpenFails : RenderCall :=
  { Example.otherHandles with
    env := { Example.allOk with OpenSharedHandle := fun h => if h = 3 then -1 else 0 } }

/-- Twenty sprites with distinct destination rectangles, numbered in draw order. -/
def Example.sprites : List Sprite :=
  (List.range 20).map fun i =>
    ⟨8, ⟨100, 100⟩, ⟨⟨0, 0⟩, ⟨100, 100⟩⟩, ⟨⟨10 * i, 0⟩, ⟨10, 10⟩⟩, Colors.White⟩

/-! ## The DCS hooks check (CheckDCSHooks.cpp) -/

/-- A `std::filesystem::path`, as the list of its elements; `p / name` is
`p ++ [name]`. -/
abbrev Path := List String

/-- What a path names: a directory, or a regular file with its contents. -/
inductive FileNode where
  | directory
  | regular (contents : List Nat)
deriving DecidableEq, Repr

/-- A state of the file system: what each path names, if anything. -/
abbrev FileSystem := Path → Option FileNode

/-- The function `std::filesystem::is_directory`. -/
def is_directory (fs : FileSystem) (p : Path) : Bool :=
  match fs p with
  | some FileNode.directory => true
  | _ => false

/-- The function `std::filesystem::is_regular_file`. -/
def is_regular_file (fs : FileSystem) (p : Path) : Bool :=
  match fs p with
  | some (FileNode.regular _) => true
  | _ => false

/-- The code `std::errc::no_such_file_or_directory`. -/
def errc.no_such_file_or_directory : Nat := 2

/-- The code `std::errc::file_exists`. -/
def errc.file_exists : Nat := 17

/-- What a `std::filesystem` operation taking an `std::error_code&` leaves behind:
the value it returns, the file system, and the error code (`0` when cleared). -/
structure FileOp where
  result : Bool
  fs : FileSystem
  ec : Nat

/-- The function `std::filesystem::exists(p, ec)`; `oserror` is the error the
operating system reports for the query, `0` for none (a junction may report a
traversal error). It returns `true` only with `ec` cleared. -/
def path_exists (fs : FileSystem) (p : Path) (oserror : Nat) : FileOp :=
  if oserror ≠ 0 then ⟨false, fs, oserror⟩
  else ⟨(fs p).isSome, fs, 0⟩

/-- The function `std::filesystem::create_directories(p, ec)`; `oserror` is the
error the operating system reports for the attempt, `0` for none. It fails
when an element of the path names something that is not a directory; it
returns `false` with `ec` cleared when `p` is a directory already; otherwise
it creates every missing directory of the path and returns `true`. -/
def create_directories (fs : FileSystem) (p : Path) (oserror : Nat) : FileOp :=
  if oserror ≠ 0 then ⟨false, fs, oserror⟩
  else if is_directory fs p then ⟨false, fs, 0⟩
  else if p.inits.all fun q => decide (fs q = none) || is_directory fs q then
    ⟨true, fun q => if q ∈ p.inits then some FileNode.directory else fs q, 0⟩
  else ⟨false, fs, errc.file_exists⟩

/-- The function `std::filesystem::copy_file(source, dest, overwrite_existing, ec)`;
`oserror` is the error the operating system reports for the attempt, `0` for
none (the destination may be in use). It fails when the source is not a
regular file, when the destination exists and is not a regular file, and when
source and destination are the same file; otherwise the destination becomes a
regular file with the contents of the source, and it returns `true`. -/
def copy_file (fs : FileSystem) (source dest : Path) (oserror : Nat) : FileOp :=
  if oserror ≠ 0 then ⟨false, fs, oserror⟩
  else
    match fs source with
    | some (FileNode.regular contents) =>
      if is_directory fs dest then ⟨false, fs, errc.file_exists⟩
      else if source = dest then ⟨false, fs, errc.file_exists⟩
      else ⟨true, fun q => if q = dest then some (FileNode.regular contents) else fs q, 0⟩
    | _ => ⟨false, fs, errc.no_such_file_or_directory⟩

/-- The file names `RuntimeFiles::DCSWORLD_HOOK_DLL` and
`RuntimeFiles::DCSWORLD_HOOK_LUA`, whose values are not among the sources. -/
structure RuntimeFiles where
  DCSWORLD_HOOK_DLL : String
  DCSWORLD_HOOK_LUA : String

/-- The enum `DCSHookInstallState` (CheckDCSHooks.cpp, line 52). -/
inductive DCSHookInstallState where
  | UP_TO_DATE
  | OUT_OF_DATE
  | NOT_INSTALLED
deriving DecidableEq, Repr

/-- The function `GetHookInstallState` (CheckDCSHooks.cpp, lines 54-78). The
helper `FilesDiffer` (`OpenKneeboard/FilesDiffer.hpp`) is not among the
sources and is a parameter. -/
def GetHookInstallState (FilesDiffer : FileSystem → Path → Path → Bool) (rf : RuntimeFiles)
    (fs : FileSystem) (hooksDir exeDir : Path) : DCSHookInstallState :=
  if !is_directory fs hooksDir then DCSHookInstallState.NOT_INSTALLED
  else
    let dllDest := hooksDir ++ [rf.DCSWORLD_HOOK_DLL]
    let luaDest := hooksDir ++ [rf.DCSWORLD_HOOK_LUA]
    if !(is_regular_file fs dllDest && is_regular_file fs dllDest) then
      DCSHookInstallState.NOT_INSTALLED
    else
      let dllSource := exeDir ++ [rf.DCSWORLD_HOOK_DLL]
      let luaSource := exeDir ++ [rf.DCSWORLD_HOOK_LUA]
      if FilesDiffer fs dllSource dllDest || FilesDiffer fs luaSource luaDest then
        DCSHookInstallState.OUT_OF_DATE
      else DCSHookInstallState.UP_TO_DATE

/-- The enum `ContentDialogResult` of WinUI: `Primary` is the "Retry" button of
the dialog, `None` its close button "Ignore". -/
inductive ContentDialogResult where
  | None
  | Primary
  | Secondary
deriving DecidableEq, Repr

/-- What `CheckDCSHooks` does that the user or the file system sees: the dialog is
shown and answered, `create_directories` is called and returns, `copy_file` is
called and returns. -/
inductive HookEvent where
  | ShowAsync (result : ContentDialogResult)
  | create_directories (p : Path) (result : Bool)
  | copy_file (source : Path) (dest : Path) (result : Bool)
deriving DecidableEq, Repr

/-- A call that reported failure. -/
def HookEvent.isFailure : HookEvent → Bool
  | HookEvent.create_directories _ result => !result
  | HookEvent.copy_file _ _ result => !result
  | HookEvent.ShowAsync _ => false

/-- A dialog that was answered with anything but "Retry". -/
def HookEvent.isDismissal : HookEvent → Bool
  | HookEvent.ShowAsync result => decide (result ≠ ContentDialogResult.Primary)
  | _ => false

/-- What the surroundings supply for one pass of the loop of `CheckDCSHooks`: the
user's answer should the dialog be shown, and the error, if any (`0` for
none), that the operating system reports for each attempt of the pass. -/
structure Pass where
  dialog : ContentDialogResult
  createDirectoriesError : Nat
  copyLuaError : Nat
  copyDllError : Nat
deriving DecidableEq, Repr

/-- How `CheckDCSHooks` ends: at one of its three `co_return`s, at the `break`
that follows a dismissed dialog, or not yet (it awaits surroundings that were
not supplied). -/
inductive HookOutcome where
  | pathNotFound
  | alreadyUpToDate
  | updated
  | dismissed
  | pending
deriving DecidableEq, Repr

/-- A run of `CheckDCSHooks`: how it ended, the file system it leaves, the error
code it last held, and what it did, oldest first. -/
structure HookRun where
  outcome : HookOutcome
  fs : FileSystem
  ec : Nat
  trace : List HookEvent

/-- Lines 130-167 of `CheckDCSHooks`, reached once the hooks directory is there:
the Lua hook, then the DLL, is copied over what is installed. A copy that
fails ends the pass with `continue` (`pending` here); after both, the
coroutine returns. `done` holds what the pass did before. -/
def CheckDCSHooks.copies (rf : RuntimeFiles) (exeDir hooksDir : Path) (pass : Pass)
    (fs : FileSystem) (done : List HookEvent) : HookRun :=
  let dllSource := exeDir ++ [rf.DCSWORLD_HOOK_DLL]
  let luaSource := exeDir ++ [rf.DCSWORLD_HOOK_LUA]
  let dllDest := hooksDir ++ [rf.DCSWORLD_HOOK_DLL]
  let luaDest := hooksDir ++ [rf.DCSWORLD_HOOK_LUA]
  -- lines 130-146
  let lua := copy_file fs luaSource luaDest pass.copyLuaError
  if !lua.result then
    ⟨HookOutcome.pending, lua.fs, lua.ec, done ++ [HookEvent.copy_file luaSource luaDest false]⟩
  else
    -- lines 148-164
    let dll := copy_file lua.fs dllSource dllDest pass.copyDllError
    if !dll.result then
      ⟨HookOutcome.pending, dll.fs, dll.ec,
        done ++ [HookEvent.copy_file luaSource luaDest true,
          HookEvent.copy_file dllSource dllDest false]⟩
    else
      -- lines 166-167
      ⟨HookOutcome.updated, dll.fs, dll.ec,
        done ++ [HookEvent.copy_file luaSource luaDest true,
          HookEvent.copy_file dllSource dllDest true]⟩

/-- The body of the loop of `CheckDCSHooks` after the dialog (lines 120-167): the
hooks directory is created unless it is one already, in which case
`create_directories` is not called; a creation that fails ends the pass with
`continue` (`pending` here); then the copies, each of which sets or clears
the error code. -/
def CheckDCSHooks.attempt (rf : RuntimeFiles) (exeDir hooksDir : Path) (pass : Pass)
    (fs : FileSystem) : HookRun :=
  if is_directory fs hooksDir then CheckDCSHooks.copies rf exeDir hooksDir pass fs []
  else
    let made := create_directories fs hooksDir pass.createDirectoriesError
    if !made.result then
      ⟨HookOutcome.pending, made.fs, made.ec, [HookEvent.create_directories hooksDir false]⟩
    else
      CheckDCSHooks.copies rf exeDir hooksDir pass made.fs
        [HookEvent.create_directories hooksDir true]

/-- The loop `do ... while (true)` of `CheckDCSHooks` (lines 112-168), one `Pass`
per pass: with an error pending the dialog is shown first, and any answer
but `Primary` leaves the loop; a pass that fails sets the error and goes
round again. -/
def CheckDCSHooks.loop (rf : RuntimeFiles) (exeDir hooksDir : Path) :
    List Pass → FileSystem → Nat → HookRun
  | [], fs, ec => ⟨HookOutcome.pending, fs, ec, []⟩
  | pass :: rest, fs, ec =>
    if ec ≠ 0 ∧ pass.dialog ≠ ContentDialogResult.Primary then
      ⟨HookOutcome.dismissed, fs, ec, [HookEvent.ShowAsync pass.dialog]⟩
    else
      let shown := if ec ≠ 0 then [HookEvent.ShowAsync pass.dialog] else []
      let run := CheckDCSHooks.attempt rf exeDir hooksDir pass fs
      if run.outcome = HookOutcome.updated then
        ⟨HookOutcome.updated, run.fs, run.ec, shown ++ run.trace⟩
      else
        let next := CheckDCSHooks.loop rf exeDir hooksDir rest run.fs run.ec
        ⟨next.outcome, next.fs, next.ec, shown ++ run.trace ++ next.trace⟩

/-- The coroutine `CheckDCSHooks` (CheckDCSHooks.cpp, lines 80-169). `exeDir` is
what `Filesystem::GetRuntimeDirectory()` returns and `existsError` the error,
if any, of the query whether `savedGamesPath` exists. -/
def CheckDCSHooks (FilesDiffer : FileSystem → Path → Path → Bool) (rf : RuntimeFiles)
    (exeDir savedGamesPath : Path) (existsError : Nat) (passes : List Pass)
    (fs : FileSystem) : HookRun :=
  let found := path_exists fs savedGamesPath existsError
  if !found.result then ⟨HookOutcome.pathNotFound, fs, found.ec, []⟩
  else
    let hooksDir := savedGamesPath ++ ["Scripts", "Hooks"]
    if GetHookInstallState FilesDiffer rf fs hooksDir exeDir = DCSHookInstallState.UP_TO_DATE then
      ⟨HookOutcome.alreadyUpToDate, fs, found.ec, []⟩
    else CheckDCSHooks.loop rf exeDir hooksDir passes fs found.ec

/-- Whether every `ShowAsync` of a trace comes straight after a call that reported
failure; `afterFailure` tells whether the trace itself starts straight after
one. -/
def dialogsFollowFailures : Bool → List HookEvent → Bool
  | _, [] => true
  | afterFailure, HookEvent.ShowAsync _ :: rest =>
    afterFailure && dialogsFollowFailures false rest
  | _, e :: rest => dialogsFollowFailures e.isFailure rest

/-- A `FilesDiffer` that compares what the two paths name. -/
def Example.FilesDiffer : FileSystem → Path → Path → Bool :=
  fun fs a b => decide (fs a ≠ fs b)

/-- The names of the two hook files. -/
def Example.runtimeFiles : RuntimeFiles := ⟨"hook.dll", "hook.lua"⟩

/-- A file system with the two hook files in the runtime directory `exe` and an
empty saved-games directory `saved`. -/
def Example.notInstalled : FileSystem := fun p =>
  if p = ["exe"] ∨ p = ["saved"] then some FileNode.directory
  else if p = ["exe", "hook.dll"] then some (FileNode.regular [1, 2, 3])
  else if p = ["exe", "hook.lua"] then some (FileNode.regular [4, 5])
  else none

/-- The file system `Example.notInstalled` with a hooks directory that holds an
older hook DLL and no Lua hook. -/
def Example.luaMissing : FileSystem := fun p =>
  if p = ["saved", "Scripts"] ∨ p = ["saved", "Scripts", "Hooks"] then
    some FileNode.directory
  else if p = ["saved", "Scripts", "Hooks", "hook.dll"] then some (FileNode.regular [9])
  else Example.notInstalled p

/-- Two passes: in the first the Lua hook cannot be written, in the second the
user has chosen "Retry" and every attempt succeeds. -/
def Example.retryOnce : List Pass :=
  [⟨ContentDialogResult.None, 0, 5, 0⟩, ⟨ContentDialogResult.Primary, 0, 0, 0⟩]

/-! ## Sequencing and the steps of `Render` -/

theorem RenderM.bind_result {α β : Type} (m : RenderM α) (f : α → RenderM β)
    (s : D3D12Renderer) :
    (RenderM.bind m f s).result =
      match (m s).result with
      | Result.ok a => (f a (m s).state).result
      | Result.hresult_error hr => Result.hresult_error hr
      | Result.fatal => Result.fatal := by
  unfold RenderM.bind
  rcases h : m s with ⟨r, s1, t1⟩
  cases r <;> rfl

theorem RenderM.bind_state {α β : Type} (m : RenderM α) (f : α → RenderM β)
    (s : D3D12Renderer) :
    (RenderM.bind m f s).state =
      match (m s).result with
      | Result.ok a => (f a (m s).state).state
      | _ => (m s).state := by
  unfold RenderM.bind
  rcases h : m s with ⟨r, s1, t1⟩
  cases r <;> rfl

theorem RenderM.bind_trace {α β : Type} (m : RenderM α) (f : α → RenderM β)
    (s : D3D12Renderer) :
    (RenderM.bind m f s).trace =
      (m s).trace ++
        match (m s).result with
        | Result.ok a => (f a (m s).state).trace
        | _ => [] := by
  unfold RenderM.bind
  rcases h : m s with ⟨r, s1, t1⟩
  cases r <;> simp

theorem Render.importDestTexture_eq (env : Env) (h : HANDLE) (s : D3D12Renderer) :
    Render.importDestTexture env h s =
      if h = s.mDestHandle then ⟨Result.ok (), s, []⟩
      else if FAILED (env.OpenSharedHandle h) then
        ⟨Result.hresult_error (env.OpenSharedHandle h), { s with mDestTexture := none },
          (match s.mDestTexture with
            | some object => [Event.Release object]
            | none => []) ++ [Event.OpenSharedHandle h Interface.ID3D12Resource]⟩
      else
        ⟨Result.ok (),
          { s with mDestTexture := some ⟨h, s.mDeviceObjects⟩,
                   mDeviceObjects := s.mDeviceObjects + 1,
                   mDestHandle := h },
          (match s.mDestTexture with
            | some object => [Event.Release object]
            | none => []) ++ [Event.OpenSharedHandle h Interface.ID3D12Resource]⟩ := by
  by_cases h1 : h = s.mDestHandle
  · simp [Render.importDestTexture, bind, pure, RenderM.bind, getState, h1]
  · cases hT : s.mDestTexture <;> by_cases h2 : FAILED (env.OpenSharedHandle h) = true <;>
      simp [Render.importDestTexture, bind, pure, RenderM.bind, getState, modifyState,
        resetDestTexture, captureDestTexture, comPtrPut, releaseHeld, h1, h2, hT]

theorem Render.importFence_eq (env : Env) (h : HANDLE) (s : D3D12Renderer) :
    Render.importFence env h s =
      if h = s.mFenceHandle then ⟨Result.ok (), s, []⟩
      else if FAILED (env.OpenSharedHandle h) then
        ⟨Result.hresult_error (env.OpenSharedHandle h), { s with mFence := none },
          releaseHeld s.mFence ++ [Event.OpenSharedHandle h Interface.ID3D12Fence]⟩
      else
        ⟨Result.ok (),
          { s with mFence := some ⟨h, s.mDeviceObjects⟩,
                   mDeviceObjects := s.mDeviceObjects + 1,
                   mFenceHandle := h },
          releaseHeld s.mFence ++ [Event.OpenSharedHandle h Interface.ID3D12Fence]⟩ := by
  by_cases h1 : h = s.mFenceHandle
  · simp [Render.importFence, bind, pure, RenderM.bind, getState, h1]
  · by_cases h2 : FAILED (env.OpenSharedHandle h) = true <;>
      simp [Render.importFence, bind, pure, RenderM.bind, getState, modifyState,
        captureFence, comPtrPut, h1, h2]

theorem Render.prepareCommandList_eq (env : Env) (s : D3D12Renderer) :
    Render.prepareCommandList env s =
      match s.mCommandList with
      | some _ =>
        if FAILED env.Reset then
          ⟨Result.hresult_error env.Reset, s,
            [Event.CreateRenderTargetView s.mDestTexture, Event.CommandListReset]⟩
        else
          ⟨Result.ok (), s,
            [Event.CreateRenderTargetView s.mDestTexture, Event.CommandListReset]⟩
      | none =>
        if FAILED env.CreateCommandList then
          ⟨Result.hresult_error env.CreateCommandList, s,
            [Event.CreateRenderTargetView s.mDestTexture, Event.CreateCommandList]⟩
        else
          ⟨Result.ok (),
            { s with mCommandList := some s.mDeviceObjects,
                     mDeviceObjects := s.mDeviceObjects + 1 },
            [Event.CreateRenderTargetView s.mDestTexture, Event.CreateCommandList]⟩ := by
  cases hC : s.mCommandList
  · by_cases h2 : FAILED env.CreateCommandList = true <;>
      simp [Render.prepareCommandList, bind, RenderM.bind, getState, emit,
        captureCommandList, hC, h2]
  · by_cases h2 : FAILED env.Reset = true <;>
      simp [Render.prepareCommandList, bind, RenderM.bind, getState, emit,
        check_hresult, hC, h2]

theorem Render.composite_eq (st : Texture) (sr : PixelRect) (dd : PixelSize) (dr : PixelRect)
    (s : D3D12Renderer) :
    Render.composite st sr dd dr s =
      match s.mSpriteBatch.mTargetSize with
      | some _ =>
        ⟨Result.fatal, s,
          [Event.SetDescriptorHeaps st.mShaderResourceViewHeap, Event.SpriteBatchBegin dd]⟩
      | none =>
        ⟨Result.ok (),
          { s with mSpriteBatch :=
              { mTargetSize := none, mSprites := [],
                mFlushed := s.mSpriteBatch.mFlushed ++
                  [[⟨st.mShaderResourceViewGPUHandle, st.mDimensions, sr, dr, Colors.White⟩]] } },
          [Event.SetDescriptorHeaps st.mShaderResourceViewHeap, Event.SpriteBatchBegin dd,
            Event.SpriteBatchDraw st.mShaderResourceViewGPUHandle st.mDimensions sr dr,
            Event.SpriteBatchEnd]⟩ := by
  cases hT : s.mSpriteBatch.mTargetSize <;>
    simp [Render.composite, bind, RenderM.bind, emit, callSpriteBatch, SpriteBatch.Begin,
      SpriteBatch.Draw, SpriteBatch.End, SpriteBatch.Flush, MaxSpritesPerBatch, hT]

theorem Render.submit_eq (env : Env) (fv : Nat) (s : D3D12Renderer) :
    Render.submit env fv s =
      if FAILED env.Close then
        ⟨Result.hresult_error env.Close, s, [Event.CommandListClose]⟩
      else if FAILED env.Wait then
        ⟨Result.hresult_error env.Wait, s,
          [Event.CommandListClose, Event.QueueWait s.mFence fv]⟩
      else if FAILED env.Signal then
        ⟨Result.hresult_error env.Signal, s,
          [Event.CommandListClose, Event.QueueWait s.mFence fv,
            Event.QueueExecuteCommandLists [s.mCommandList],
            Event.QueueSignal s.mFence ((fv + 1) % UINT64_MOD)]⟩
      else
        ⟨Result.ok ((fv + 1) % UINT64_MOD), s,
          [Event.CommandListClose, Event.QueueWait s.mFence fv,
            Event.QueueExecuteCommandLists [s.mCommandList],
            Event.QueueSignal s.mFence ((fv + 1) % UINT64_MOD)]⟩ := by
  by_cases h1 : FAILED env.Close = true <;> by_cases h2 : FAILED env.Wait = true <;>
    by_cases h3 : FAILED env.Signal = true <;>
    simp [Render.submit, bind, pure, RenderM.bind, getState, emit, check_hresult, h1, h2, h3]

theorem Render_eq (env : Env) (st : Texture) (sr : PixelRect) (dh : HANDLE) (dd : PixelSize)
    (dr : PixelRect) (fh : HANDLE) (fv : Nat) (s : D3D12Renderer) :
    Render env st sr dh dd dr fh fv s =
      RenderM.bind (Render.importDestTexture env dh) (fun _ =>
        RenderM.bind (Render.importFence env fh) (fun _ =>
          RenderM.bind (Render.prepareCommandList env) (fun _ =>
            RenderM.bind (Render.composite st sr dd dr) (fun _ =>
              Render.submit env fv)))) s := rfl

/-- What a `Render` call that returns has done: every step before the submission
returned, the sprite batch was Idle, and no submission call failed. -/
theorem Render_ok (env : Env) (st : Texture) (sr : PixelRect) (dh : HANDLE) (dd : PixelSize)
    (dr : PixelRect) (fh : HANDLE) (fv : Nat) (s : D3D12Renderer) (v : Nat)
    (h : (Render env st sr dh dd dr fh fv s).result = Result.ok v) :
    ∃ s1 s2 s3 t1 t2 t3,
      Render.importDestTexture env dh s = ⟨Result.ok (), s1, t1⟩ ∧
      Render.importFence env fh s1 = ⟨Result.ok (), s2, t2⟩ ∧
      Render.prepareCommandList env s2 = ⟨Result.ok (), s3, t3⟩ ∧
      s3.mSpriteBatch.mTargetSize = none ∧
      v = (fv + 1) % UINT64_MOD ∧
      Render env st sr dh dd dr fh fv s =
        ⟨Result.ok v,
          { s3 with mSpriteBatch :=
              { mTargetSize := none, mSprites := [],
                mFlushed := s3.mSpriteBatch.mFlushed ++
                  [[⟨st.mShaderResourceViewGPUHandle, st.mDimensions, sr, dr, Colors.White⟩]] } },
          t1 ++ (t2 ++ (t3 ++
            [Event.SetDescriptorHeaps st.mShaderResourceViewHeap, Event.SpriteBatchBegin dd,
              Event.SpriteBatchDraw st.mShaderResourceViewGPUHandle st.mDimensions sr dr,
              Event.SpriteBatchEnd, Event.CommandListClose, Event.QueueWait s3.mFence fv,
              Event.QueueExecuteCommandLists [s3.mCommandList],
              Event.QueueSignal s3.mFence v]))⟩ := by
  rw [Render_eq] at h ⊢
  rcases h1 : Render.importDestTexture env dh s with ⟨r1, s1, t1⟩
  cases r1 with
  | hresult_error hr => simp [RenderM.bind, h1] at h
  | fatal => simp [RenderM.bind, h1] at h
  | ok u1 =>
    rcases h2 : Render.importFence env fh s1 with ⟨r2, s2, t2⟩
    cases r2 with
    | hresult_error hr => simp [RenderM.bind, h1, h2] at h
    | fatal => simp [RenderM.bind, h1, h2] at h
    | ok u2 =>
      rcases h3 : Render.prepareCommandList env s2 with ⟨r3, s3, t3⟩
      cases r3 with
      | hresult_error hr => simp [RenderM.bind, h1, h2, h3] at h
      | fatal => simp [RenderM.bind, h1, h2, h3] at h
      | ok u3 =>
        refine ⟨s1, s2, s3, t1, t2, t3, rfl, h2, h3, ?_⟩
        cases hT : s3.mSpriteBatch.mTargetSize with
        | some size =>
          simp [RenderM.bind, h1, h2, h3, Render.composite_eq, hT] at h
        | none =>
          by_cases c1 : FAILED env.Close = true
          · simp [RenderM.bind, h1, h2, h3, Render.composite_eq, Render.submit_eq, hT, c1] at h
          · by_cases c2 : FAILED env.Wait = true
            · simp [RenderM.bind, h1, h2, h3, Render.composite_eq, Render.submit_eq, hT, c1,
                c2] at h
            · by_cases c3 : FAILED env.Signal = true
              · simp [RenderM.bind, h1, h2, h3, Render.composite_eq, Render.submit_eq, hT, c1,
                  c2, c3] at h
              · simp [RenderM.bind, h1, h2, h3, Render.composite_eq, Render.submit_eq, hT, c1,
                  c2, c3] at h ⊢
                exact ⟨h.symm, h⟩

theorem Render.importDestTexture_noQueueOp (env : Env) (h : HANDLE) (s : D3D12Renderer) :
    (Render.importDestTexture env h s).trace.filter Event.isQueueOp = [] ∧
    (Render.importDestTexture env h s).trace.filter Event.isCpuWait = [] ∧
    (Render.importDestTexture env h s).trace.filter Event.isSpriteBatchCall = [] := by
  rw [Render.importDestTexture_eq]
  cases s.mDestTexture <;> split_ifs <;> simp [Event.isQueueOp, Event.isCpuWait, Event.isSpriteBatchCall]

theorem Render.importFence_noQueueOp (env : Env) (h : HANDLE) (s : D3D12Renderer) :
    (Render.importFence env h s).trace.filter Event.isQueueOp = [] ∧
    (Render.importFence env h s).trace.filter Event.isCpuWait = [] ∧
    (Render.importFence env h s).trace.filter Event.isSpriteBatchCall = [] := by
  rw [Render.importFence_eq]
  cases s.mFence <;> split_ifs <;>
    simp [releaseHeld, Event.isQueueOp, Event.isCpuWait, Event.isSpriteBatchCall]

theorem Render.prepareCommandList_noQueueOp (env : Env) (s : D3D12Renderer) :
    (Render.prepareCommandList env s).trace.filter Event.isQueueOp = [] ∧
    (Render.prepareCommandList env s).trace.filter Event.isCpuWait = [] ∧
    (Render.prepareCommandList env s).trace.filter Event.isSpriteBatchCall = [] := by
  rw [Render.prepareCommandList_eq]
  cases s.mCommandList <;> simp only <;> split_ifs <;>
    simp [Event.isQueueOp, Event.isCpuWait, Event.isSpriteBatchCall]

theorem Render.importDestTexture_frame (env : Env) (h : HANDLE) (s : D3D12Renderer) :
    (Render.importDestTexture env h s).state.mFenceHandle = s.mFenceHandle ∧
    (Render.importDestTexture env h s).state.mFence = s.mFence ∧
    (Render.importDestTexture env h s).state.mCommandList = s.mCommandList ∧
    (Render.importDestTexture env h s).state.mSpriteBatch = s.mSpriteBatch := by
  rw [Render.importDestTexture_eq]
  split_ifs <;> simp

theorem Render.importFence_frame (env : Env) (h : HANDLE) (s : D3D12Renderer) :
    (Render.importFence env h s).state.mDestHandle = s.mDestHandle ∧
    (Render.importFence env h s).state.mDestTexture = s.mDestTexture ∧
    (Render.importFence env h s).state.mCommandList = s.mCommandList ∧
    (Render.importFence env h s).state.mSpriteBatch = s.mSpriteBatch := by
  rw [Render.importFence_eq]
  split_ifs <;> simp

theorem Render.importFence_ok (env : Env) (h : HANDLE) (s : D3D12Renderer)
    (hok : (Render.importFence env h s).result = Result.ok ()) :
    (Render.importFence env h s).state.mFenceHandle = h := by
  rw [Render.importFence_eq] at hok ⊢
  split_ifs at hok ⊢ <;> simp_all

theorem Render.importDestTexture_ok (env : Env) (h : HANDLE) (s : D3D12Renderer)
    (hok : (Render.importDestTexture env h s).result = Result.ok ()) :
    (Render.importDestTexture env h s).state.mDestHandle = h := by
  rw [Render.importDestTexture_eq] at hok ⊢
  split_ifs at hok ⊢ <;> simp_all

theorem Render.prepareCommandList_frame (env : Env) (s : D3D12Renderer) :
    (Render.prepareCommandList env s).state.mDestHandle = s.mDestHandle ∧
    (Render.prepareCommandList env s).state.mDestTexture = s.mDestTexture ∧
    (Render.prepareCommandList env s).state.mFenceHandle = s.mFenceHandle ∧
    (Render.prepareCommandList env s).state.mFence = s.mFence ∧
    (Render.prepareCommandList env s).state.mSpriteBatch = s.mSpriteBatch := by
  rw [Render.prepareCommandList_eq]
  cases s.mCommandList <;> simp only <;> split_ifs <;> simp

theorem Render.prepareCommandList_ok (env : Env) (s : D3D12Renderer)
    (hok : (Render.prepareCommandList env s).result = Result.ok ()) :
    (Render.prepareCommandList env s).state.mCommandList ≠ none := by
  rw [Render.prepareCommandList_eq] at hok ⊢
  cases hC : s.mCommandList <;> simp only [hC] at hok ⊢ <;> split_ifs at hok ⊢ <;> simp_all

theorem Render.submit_state (env : Env) (fv : Nat) (s : D3D12Renderer) :
    (Render.submit env fv s).state = s := by
  rw [Render.submit_eq]
  split_ifs <;> rfl

/-- A `Render` call either ends before the submission, having made no call on the
queue, or reaches the submission with the steps before it done. -/
theorem Render_submit_cases (env : Env) (st : Texture) (sr : PixelRect) (dh : HANDLE)
    (dd : PixelSize) (dr : PixelRect) (fh : HANDLE) (fv : Nat) (s : D3D12Renderer) :
    ((∀ v, (Render env st sr dh dd dr fh fv s).result ≠ Result.ok v) ∧
      (Render env st sr dh dd dr fh fv s).trace.filter Event.isQueueOp = []) ∨
    ∃ s4 pre, pre.filter Event.isQueueOp = [] ∧
      Render env st sr dh dd dr fh fv s =
        ⟨(Render.submit env fv s4).result, s4, pre ++ (Render.submit env fv s4).trace⟩ := by
  rw [Render_eq]
  have q1 := (Render.importDestTexture_noQueueOp env dh s).1
  rcases h1 : Render.importDestTexture env dh s with ⟨r1, s1, t1⟩
  rw [h1] at q1
  simp only at q1
  have q2 := (Render.importFence_noQueueOp env fh s1).1
  rcases h2 : Render.importFence env fh s1 with ⟨r2, s2, t2⟩
  rw [h2] at q2
  simp only at q2
  have q3 := (Render.prepareCommandList_noQueueOp env s2).1
  rcases h3 : Render.prepareCommandList env s2 with ⟨r3, s3, t3⟩
  rw [h3] at q3
  simp only at q3
  cases r1 with
  | hresult_error hr => left; simp [RenderM.bind, h1, q1]
  | fatal => left; simp [RenderM.bind, h1, q1]
  | ok u1 =>
    cases r2 with
    | hresult_error hr => left; simp [RenderM.bind, h1, h2, q1, q2]
    | fatal => left; simp [RenderM.bind, h1, h2, q1, q2]
    | ok u2 =>
      cases r3 with
      | hresult_error hr => left; simp [RenderM.bind, h1, h2, h3, q1, q2, q3]
      | fatal => left; simp [RenderM.bind, h1, h2, h3, q1, q2, q3]
      | ok u3 =>
        cases hT : s3.mSpriteBatch.mTargetSize with
        | some size =>
          left
          simp [RenderM.bind, h1, h2, h3, q1, q2, q3, Render.composite_eq, hT,
            Event.isQueueOp]
        | none =>
          right
          refine ⟨{ s3 with mSpriteBatch :=
              { mTargetSize := none, mSprites := [],
                mFlushed := s3.mSpriteBatch.mFlushed ++
                  [[⟨st.mShaderResourceViewGPUHandle, st.mDimensions, sr, dr, Colors.White⟩]] } },
            t1 ++ (t2 ++ (t3 ++
              [Event.SetDescriptorHeaps st.mShaderResourceViewHeap, Event.SpriteBatchBegin dd,
                Event.SpriteBatchDraw st.mShaderResourceViewGPUHandle st.mDimensions sr dr,
                Event.SpriteBatchEnd])), ?_, ?_⟩
          · simp [List.filter_append, q1, q2, q3, Event.isQueueOp]
          · simp only [RenderM.bind, h1, h2, h3, Render.composite_eq, hT]
            have hs := Render.submit_state env fv { s3 with mSpriteBatch :=
              { mTargetSize := none, mSprites := [],
                mFlushed := s3.mSpriteBatch.mFlushed ++
                  [[⟨st.mShaderResourceViewGPUHandle, st.mDimensions, sr, dr, Colors.White⟩]] } }
            revert hs
            rcases Render.submit env fv _ with ⟨r5, s5, t5⟩
            intro hs
            simp only at hs
            subst hs
            cases r5 <;> simp

theorem Render.importDestTexture_opens (env : Env) (h : HANDLE) (s : D3D12Renderer) :
    (Render.importDestTexture env h s).trace.filter (Event.isOpenAs Interface.ID3D12Resource) =
      (if h ≠ s.mDestHandle then [Event.OpenSharedHandle h Interface.ID3D12Resource] else []) ∧
    (Render.importDestTexture env h s).trace.filter (Event.isOpenAs Interface.ID3D12Fence) = [] ∧
    ((Render.importDestTexture env h s).result = Result.ok () ↔
      ¬(h ≠ s.mDestHandle ∧ FAILED (env.OpenSharedHandle h) = true)) ∧
    (Render.importDestTexture env h s).result ≠ Result.fatal := by
  rw [Render.importDestTexture_eq]
  cases s.mDestTexture <;> split_ifs <;> simp_all [Event.isOpenAs]

theorem Render.importFence_opens (env : Env) (h : HANDLE) (s : D3D12Renderer) :
    (Render.importFence env h s).trace.filter (Event.isOpenAs Interface.ID3D12Fence) =
      (if h ≠ s.mFenceHandle then [Event.OpenSharedHandle h Interface.ID3D12Fence] else []) ∧
    (Render.importFence env h s).trace.filter (Event.isOpenAs Interface.ID3D12Resource) = [] ∧
    (Render.importFence env h s).result ≠ Result.fatal := by
  rw [Render.importFence_eq]
  cases s.mFence <;> split_ifs <;> simp_all [releaseHeld, Event.isOpenAs]

theorem Render.afterImports_opens (env : Env) (st : Texture) (sr : PixelRect) (dd : PixelSize)
    (dr : PixelRect) (fv : Nat) (riid : Interface) (s : D3D12Renderer) :
    (RenderM.bind (Render.prepareCommandList env) (fun _ =>
      RenderM.bind (Render.composite st sr dd dr) (fun _ =>
        Render.submit env fv)) s).trace.filter (Event.isOpenAs riid) = [] := by
  simp only [RenderM.bind_trace, Render.prepareCommandList_eq, Render.composite_eq,
    Render.submit_eq]
  cases s.mCommandList <;> cases hT : s.mSpriteBatch.mTargetSize <;> simp only [hT] <;>
    split_ifs <;> simp [Event.isOpenAs, hT]

theorem Render_opens (c : RenderCall) (s : D3D12Renderer) :
    (c.run s).trace.filter (Event.isOpenAs Interface.ID3D12Resource) =
      (if c.destTextureHandle ≠ s.mDestHandle then
        [Event.OpenSharedHandle c.destTextureHandle Interface.ID3D12Resource] else []) ∧
    (c.run s).trace.filter (Event.isOpenAs Interface.ID3D12Fence) =
      (if c.fenceHandle ≠ s.mFenceHandle ∧
          ¬(c.destTextureHandle ≠ s.mDestHandle ∧
            FAILED (c.env.OpenSharedHandle c.destTextureHandle) = true) then
        [Event.OpenSharedHandle c.fenceHandle Interface.ID3D12Fence] else []) := by
  unfold RenderCall.run
  rw [Render_eq]
  obtain ⟨a1, a2, a3, a4⟩ := Render.importDestTexture_opens c.env c.destTextureHandle s
  have fr := (Render.importDestTexture_frame c.env c.destTextureHandle s).1
  rw [RenderM.bind_trace]
  rcases h1 : Render.importDestTexture c.env c.destTextureHandle s with ⟨r1, s1, t1⟩
  rw [h1] at a1 a2 a3 a4 fr
  simp only at a1 a2 a3 a4 fr
  cases r1 with
  | fatal => exact absurd rfl a4
  | hresult_error hr =>
    have hne : ¬¬(c.destTextureHandle ≠ s.mDestHandle ∧
        FAILED (c.env.OpenSharedHandle c.destTextureHandle) = true) := by
      intro hn
      have := a3.2 hn
      cases this
    simp only [List.append_nil, a1, a2, true_and]
    rw [if_neg]
    exact fun hh => hne hh.2
  | ok u1 =>
    have hok := a3.1 rfl
    obtain ⟨b1, b2, b3⟩ := Render.importFence_opens c.env c.fenceHandle s1
    simp only [RenderM.bind_trace, List.filter_append, a1, a2]
    rcases h2 : Render.importFence c.env c.fenceHandle s1 with ⟨r2, s2, t2⟩
    rw [h2] at b1 b2 b3
    simp only at b1 b2 b3
    have tail := fun riid => Render.afterImports_opens c.env c.sourceTexture c.sourceRect
      c.destTextureDimensions c.destRect c.fenceValueIn riid s2
    simp only [RenderM.bind_trace] at tail
    cases r2 with
    | fatal => exact absurd rfl b3
    | hresult_error hr => simp [b1, b2, fr, hok]
    | ok u2 => simp [b1, b2, fr, hok, tail, List.filter_append]

theorem Render.composite_frame (st : Texture) (sr : PixelRect) (dd : PixelSize) (dr : PixelRect)
    (s : D3D12Renderer) :
    (Render.composite st sr dd dr s).state.mDestHandle = s.mDestHandle ∧
    (Render.composite st sr dd dr s).state.mDestTexture = s.mDestTexture ∧
    (Render.composite st sr dd dr s).state.mFenceHandle = s.mFenceHandle ∧
    (Render.composite st sr dd dr s).state.mFence = s.mFence ∧
    (Render.composite st sr dd dr s).state.mCommandList = s.mCommandList := by
  rw [Render.composite_eq]
  cases s.mSpriteBatch.mTargetSize <;> simp

/-- The steps after the two handle checks leave the stored handles alone. -/
theorem Render.afterImports_handles (env : Env) (st : Texture) (sr : PixelRect) (dd : PixelSize)
    (dr : PixelRect) (fv : Nat) (s : D3D12Renderer) :
    (RenderM.bind (Render.prepareCommandList env) (fun _ =>
      RenderM.bind (Render.composite st sr dd dr) (fun _ =>
        Render.submit env fv)) s).state.mDestHandle = s.mDestHandle ∧
    (RenderM.bind (Render.prepareCommandList env) (fun _ =>
      RenderM.bind (Render.composite st sr dd dr) (fun _ =>
        Render.submit env fv)) s).state.mFenceHandle = s.mFenceHandle := by
  have f3 := Render.prepareCommandList_frame env s
  simp only [RenderM.bind_state, Render.submit_state]
  rcases h3 : Render.prepareCommandList env s with ⟨r3, s3, t3⟩
  rw [h3] at f3
  simp only at f3
  have f4 := Render.composite_frame st sr dd dr s3
  rcases h4 : Render.composite st sr dd dr s3 with ⟨r4, s4, t4⟩
  rw [h4] at f4
  simp only at f4
  cases r3 <;> cases r4 <;> simp [f3, f4]

/-- A call that supplies the handles already stored leaves them stored. -/
theorem Render_same_handles (c : RenderCall) (s : D3D12Renderer)
    (hd : c.destTextureHandle = s.mDestHandle) (hf : c.fenceHandle = s.mFenceHandle) :
    (c.run s).state.mDestHandle = s.mDestHandle ∧
    (c.run s).state.mFenceHandle = s.mFenceHandle := by
  unfold RenderCall.run
  rw [Render_eq]
  have e1 : Render.importDestTexture c.env c.destTextureHandle s = ⟨Result.ok (), s, []⟩ := by
    rw [Render.importDestTexture_eq, if_pos hd]
  have e2 : Render.importFence c.env c.fenceHandle s = ⟨Result.ok (), s, []⟩ := by
    rw [Render.importFence_eq, if_pos hf]
  have tail := Render.afterImports_handles c.env c.sourceTexture c.sourceRect
    c.destTextureDimensions c.destRect c.fenceValueIn s
  rw [RenderM.bind_state, e1]
  simp only
  rw [RenderM.bind_state, e2]
  simp only
  exact tail

/-- A call that returns has stored the handles it was given. -/
theorem Render_ok_handles (c : RenderCall) (s : D3D12Renderer) (v : Nat)
    (h : (c.run s).result = Result.ok v) :
    (c.run s).state.mDestHandle = c.destTextureHandle ∧
    (c.run s).state.mFenceHandle = c.fenceHandle := by
  obtain ⟨s1, s2, s3, t1, t2, t3, h1, h2, h3, hT, hv, hR⟩ :=
    Render_ok c.env c.sourceTexture c.sourceRect c.destTextureHandle c.destTextureDimensions
      c.destRect c.fenceHandle c.fenceValueIn s v h
  have a1 := Render.importDestTexture_ok c.env c.destTextureHandle s (by rw [h1])
  have a2 := Render.importFence_ok c.env c.fenceHandle s1 (by rw [h2])
  have f2 := (Render.importFence_frame c.env c.fenceHandle s1).1
  have f3 := Render.prepareCommandList_frame c.env s2
  rw [h1] at a1
  rw [h2] at a2 f2
  rw [h3] at f3
  simp only at a1 a2 f2 f3
  unfold RenderCall.run
  rw [hR]
  simp only
  exact ⟨f3.1.trans (f2.trans a1), f3.2.2.1.trans a2⟩

theorem RenderAll_cons (s : D3D12Renderer) (c : RenderCall) (rest : List RenderCall) :
    RenderAll s (c :: rest) =
      c.run s :: (if (c.run s).result = Result.fatal then []
        else RenderAll (c.run s).state rest) := by
  rw [RenderAll]
  rcases h : c.run s with ⟨r, s1, t1⟩
  cases r <;> simp

/-- Calls that keep supplying the stored handles open nothing. -/
theorem RenderAll_same_handles (calls : List RenderCall) (s : D3D12Renderer)
    (hsame : ∀ c ∈ calls,
      c.destTextureHandle = s.mDestHandle ∧ c.fenceHandle = s.mFenceHandle) :
    ∀ r ∈ RenderAll s calls, ∀ riid, r.trace.filter (Event.isOpenAs riid) = [] := by
  induction calls generalizing s with
  | nil => intro r hr; simp [RenderAll] at hr
  | cons c rest ih =>
    intro r hr riid
    obtain ⟨hd, hf⟩ := hsame c (List.mem_cons_self _ _)
    rw [RenderAll_cons] at hr
    rcases List.mem_cons.1 hr with rfl | hr
    · have ho := Render_opens c s
      cases riid
      · rw [ho.1, if_neg (by simp [hd])]
      · rw [ho.2, if_neg (by simp [hf])]
    · split_ifs at hr with hfat
      · simp at hr
      · have hk := Render_same_handles c s hd hf
        refine ih (c.run s).state ?_ r hr riid
        intro c2 hc2
        have := hsame c2 (List.mem_cons_of_mem _ hc2)
        rw [hk.1, hk.2]
        exact this

theorem Render.importDestTexture_noSpriteBatchCall (env : Env) (h : HANDLE)
    (s : D3D12Renderer) :
    (Render.importDestTexture env h s).trace.filterMap Event.spriteBatchCall = [] := by
  rw [Render.importDestTexture_eq]
  cases s.mDestTexture <;> split_ifs <;> simp [Event.spriteBatchCall]

theorem Render.importFence_noSpriteBatchCall (env : Env) (h : HANDLE) (s : D3D12Renderer) :
    (Render.importFence env h s).trace.filterMap Event.spriteBatchCall = [] ∧
    (Render.importFence env h s).result ≠ Result.fatal := by
  rw [Render.importFence_eq]
  cases s.mFence <;> split_ifs <;> simp [releaseHeld, Event.spriteBatchCall]

theorem Render.prepareCommandList_noSpriteBatchCall (env : Env) (s : D3D12Renderer) :
    (Render.prepareCommandList env s).trace.filterMap Event.spriteBatchCall = [] ∧
    (Render.prepareCommandList env s).result ≠ Result.fatal := by
  rw [Render.prepareCommandList_eq]
  cases s.mCommandList <;> simp only <;> split_ifs <;> simp [Event.spriteBatchCall]

theorem Render.submit_not_fatal (env : Env) (fv : Nat) (s : D3D12Renderer) :
    (Render.submit env fv s).result ≠ Result.fatal := by
  rw [Render.submit_eq]
  split_ifs <;> simp

/-- A call that finds the sprite batch Idle is not terminated for a contract
violation and leaves the sprite batch Idle, whether it returns or throws. -/
theorem Render_idle (c : RenderCall) (s : D3D12Renderer)
    (hIdle : s.mSpriteBatch.mTargetSize = none) :
    (c.run s).result ≠ Result.fatal ∧ (c.run s).state.mSpriteBatch.mTargetSize = none := by
  unfold RenderCall.run
  rw [Render_eq]
  simp only [RenderM.bind_result, RenderM.bind_state, Render.submit_state]
  have a1 := (Render.importDestTexture_opens c.env c.destTextureHandle s).2.2.2
  have f1 := (Render.importDestTexture_frame c.env c.destTextureHandle s).2.2.2
  rcases h1 : Render.importDestTexture c.env c.destTextureHandle s with ⟨r1, s1, t1⟩
  rw [h1] at a1 f1
  simp only at a1 f1
  have a2 := (Render.importFence_noSpriteBatchCall c.env c.fenceHandle s1).2
  have f2 := (Render.importFence_frame c.env c.fenceHandle s1).2.2.2
  rcases h2 : Render.importFence c.env c.fenceHandle s1 with ⟨r2, s2, t2⟩
  rw [h2] at a2 f2
  simp only at a2 f2
  have a3 := (Render.prepareCommandList_noSpriteBatchCall c.env s2).2
  have f3 := (Render.prepareCommandList_frame c.env s2).2.2.2.2
  rcases h3 : Render.prepareCommandList c.env s2 with ⟨r3, s3, t3⟩
  rw [h3] at a3 f3
  simp only at a3 f3
  have i1 : s1.mSpriteBatch.mTargetSize = none := by rw [f1]; exact hIdle
  have i2 : s2.mSpriteBatch.mTargetSize = none := by rw [f2]; exact i1
  have i3 : s3.mSpriteBatch.mTargetSize = none := by rw [f3]; exact i2
  have a5 := fun s5 => Render.submit_not_fatal c.env c.fenceValueIn s5
  cases r1 with
  | fatal => exact absurd rfl a1
  | hresult_error hr => exact ⟨by simp, i1⟩
  | ok u1 =>
    cases r2 with
    | fatal => exact absurd rfl a2
    | hresult_error hr => exact ⟨by simp, i2⟩
    | ok u2 =>
      cases r3 with
      | fatal => exact absurd rfl a3
      | hresult_error hr => exact ⟨by simp, i3⟩
      | ok u3 =>
        simp only [Render.composite_eq, i3]
        exact ⟨a5 _, trivial⟩

/-- A call that returns has called the sprite batch three times: `Begin`, `Draw`,
`End`. -/
theorem Render_ok_spriteBatchCalls (c : RenderCall) (s : D3D12Renderer) (v : Nat)
    (h : (c.run s).result = Result.ok v) :
    (c.run s).trace.filterMap Event.spriteBatchCall =
      [SpriteBatchCall.Begin, SpriteBatchCall.Draw, SpriteBatchCall.End] := by
  obtain ⟨s1, s2, s3, t1, t2, t3, h1, h2, h3, hT, hv, hR⟩ :=
    Render_ok c.env c.sourceTexture c.sourceRect c.destTextureHandle c.destTextureDimensions
      c.destRect c.fenceHandle c.fenceValueIn s v h
  have q1 := Render.importDestTexture_noSpriteBatchCall c.env c.destTextureHandle s
  have q2 := (Render.importFence_noSpriteBatchCall c.env c.fenceHandle s1).1
  have q3 := (Render.prepareCommandList_noSpriteBatchCall c.env s2).1
  rw [h1] at q1
  rw [h2] at q2
  rw [h3] at q3
  simp only at q1 q2 q3
  unfold RenderCall.run
  rw [hR]
  simp [List.filterMap_append, q1, q2, q3, Event.spriteBatchCall]

theorem Render.submit_noSpriteBatchCall (env : Env) (fv : Nat) (s : D3D12Renderer) :
    (Render.submit env fv s).trace.filter Event.isSpriteBatchCall = [] := by
  rw [Render.submit_eq]
  split_ifs <;> simp [Event.isSpriteBatchCall]

theorem flatten_length_of_full (batches : List (List Sprite))
    (h : ∀ b ∈ batches, b.length = MaxSpritesPerBatch) :
    batches.flatten.length = MaxSpritesPerBatch * batches.length := by
  induction batches with
  | nil => simp
  | cons b rest ih =>
    have hb := h b (List.mem_cons_self _ _)
    have hr := ih (fun x hx => h x (List.mem_cons_of_mem _ hx))
    simp only [List.flatten_cons, List.length_append, List.length_cons, hb, hr]
    ring

/-- What a run of `Draw` calls does to a Began sprite batch whose batch in
progress is within capacity: full batches are flushed, in order, and the rest
stays in progress. -/
theorem SpriteBatch.DrawAll_spec (sprites : List Sprite) (sb : SpriteBatch) (size : PixelSize)
    (hB : sb.mTargetSize = some size) (hlen : sb.mSprites.length ≤ MaxSpritesPerBatch) :
    ∃ batches cur,
      sb.DrawAll sprites =
        some { mTargetSize := some size, mSprites := cur, mFlushed := sb.mFlushed ++ batches } ∧
      cur.length ≤ MaxSpritesPerBatch ∧
      (∀ b ∈ batches, b.length = MaxSpritesPerBatch) ∧
      batches.flatten ++ cur = sb.mSprites ++ sprites ∧
      (sb.mSprites ++ sprites ≠ [] → cur ≠ []) := by
  induction sprites generalizing sb with
  | nil =>
    refine ⟨[], sb.mSprites, ?_, hlen, by simp, by simp, by simp⟩
    cases sb
    simp_all [SpriteBatch.DrawAll]
  | cons sprite rest ih =>
    by_cases hfull : MaxSpritesPerBatch ≤ sb.mSprites.length
    · have hd : sb.Draw sprite =
          some { mTargetSize := some size, mSprites := [sprite],
                 mFlushed := sb.mFlushed ++ [sb.mSprites] } := by
        simp [SpriteBatch.Draw, SpriteBatch.Flush, hB, hfull]
      obtain ⟨batches, cur, h1, h2, h3, h4, h5⟩ :=
        ih { mTargetSize := some size, mSprites := [sprite],
             mFlushed := sb.mFlushed ++ [sb.mSprites] } rfl (by simp [MaxSpritesPerBatch])
      refine ⟨sb.mSprites :: batches, cur, ?_, h2, ?_, ?_, ?_⟩
      · simp only [SpriteBatch.DrawAll, hd, h1]
        simp
      · intro b hb
        rcases List.mem_cons.1 hb with rfl | hb
        · exact le_antisymm hlen hfull
        · exact h3 b hb
      · simp only at h4
        simp [h4]
      · intro _
        exact h5 (by simp)
    · have hd : sb.Draw sprite =
          some { mTargetSize := some size, mSprites := sb.mSprites ++ [sprite],
                 mFlushed := sb.mFlushed } := by
        simp [SpriteBatch.Draw, hB, hfull]
      obtain ⟨batches, cur, h1, h2, h3, h4, h5⟩ :=
        ih { mTargetSize := some size, mSprites := sb.mSprites ++ [sprite],
             mFlushed := sb.mFlushed } rfl
        (by simp only [List.length_append, List.length_singleton]; omega)
      refine ⟨batches, cur, ?_, h2, h3, ?_, ?_⟩
      · simp only [SpriteBatch.DrawAll, hd, h1]
      · simp only at h4
        simp [h4]
      · intro _
        exact h5 (by simp)

/-! ## The file operations and the passes of `CheckDCSHooks` -/

/-- A copy that succeeds had a regular file as its source, another path as its
destination, and leaves the destination a regular file with the source's
contents and everything else as it was. -/
theorem copy_file_ok (fs : FileSystem) (source dest : Path) (oserror : Nat)
    (h : (copy_file fs source dest oserror).result = true) :
    ∃ contents, fs source = some (FileNode.regular contents) ∧ source ≠ dest ∧
      (copy_file fs source dest oserror).fs =
        (fun q => if q = dest then some (FileNode.regular contents) else fs q) := by
  by_cases he : oserror = 0
  · rcases hs : fs source with _ | (_ | contents)
    · simp [copy_file, he, hs] at h
    · simp [copy_file, he, hs] at h
    · by_cases hd : is_directory fs dest = true
      · simp [copy_file, he, hs, hd] at h
      · by_cases hsd : source = dest
        · subst hsd
          simp [copy_file, he, hs, hd] at h
        · exact ⟨contents, rfl, hsd, by simp [copy_file, he, hs, hd, hsd]⟩
  · simp [copy_file, he] at h

/-- A copy that fails leaves the file system as it was. -/
theorem copy_file_failed (fs : FileSystem) (source dest : Path) (oserror : Nat)
    (h : (copy_file fs source dest oserror).result = false) :
    (copy_file fs source dest oserror).fs = fs := by
  by_cases he : oserror = 0
  · rcases hs : fs source with _ | (_ | contents)
    · simp [copy_file, he, hs]
    · simp [copy_file, he, hs]
    · by_cases hd : is_directory fs dest = true
      · simp [copy_file, he, hs, hd]
      · by_cases hsd : source = dest
        · subst hsd
          simp [copy_file, he, hs, hd]
        · simp [copy_file, he, hs, hd, hsd] at h
  · simp [copy_file, he]

/-- After a creation that succeeds the path is a directory. -/
theorem create_directories_ok (fs : FileSystem) (p : Path) (oserror : Nat)
    (h : (create_directories fs p oserror).result = true) :
    is_directory (create_directories fs p oserror).fs p = true := by
  unfold create_directories at h ⊢
  split_ifs at h ⊢
  simp_all [is_directory]

/-- Two copies in a row that both succeed, where the two sources and the two
destinations are built from the same two file names: afterwards each
destination is a regular file with the contents of its source, and every path
that is no destination names what it did. -/
theorem copy_file_twice (fs : FileSystem) (a b c d : Path) (e1 e2 : Nat)
    (h1 : (copy_file fs a b e1).result = true)
    (h2 : (copy_file (copy_file fs a b e1).fs c d e2).result = true)
    (hbd : b = d → a = c) (had : a = d → a = b) :
    (∃ lua, (copy_file (copy_file fs a b e1).fs c d e2).fs a = some (FileNode.regular lua) ∧
      (copy_file (copy_file fs a b e1).fs c d e2).fs b = some (FileNode.regular lua)) ∧
    (∃ dll, (copy_file (copy_file fs a b e1).fs c d e2).fs c = some (FileNode.regular dll) ∧
      (copy_file (copy_file fs a b e1).fs c d e2).fs d = some (FileNode.regular dll)) ∧
    ∀ q, q ≠ b → q ≠ d → (copy_file (copy_file fs a b e1).fs c d e2).fs q = fs q := by
  obtain ⟨lua, ha, hab, hfs1⟩ := copy_file_ok fs a b e1 h1
  obtain ⟨dll, hc, hcd, hfs2⟩ := copy_file_ok _ c d e2 h2
  rw [hfs2]
  rw [hfs1] at hc ⊢
  have had2 : a ≠ d := fun h => hab (had h)
  refine ⟨?_, ?_, ?_⟩
  · by_cases hbd2 : b = d
    · have hac := hbd hbd2
      subst hac
      subst hbd2
      simp only [hab, if_false, ha] at hc
      refine ⟨dll, ?_, ?_⟩
      · simp [hab, ha, hc]
      · simp
    · exact ⟨lua, by simp [had2, hab, ha], by simp [hbd2]⟩
  · exact ⟨dll, by simpa [hcd] using hc, by simp⟩
  · intro q hqb hqd
    simp [hqb, hqd]

/-- Once both copies of a pass have succeeded into a hooks directory, the hooks
are up to date (as long as `FilesDiffer` tells two regular files with the same
contents not to differ), and each hook file of the hooks directory is a
regular file with the contents of the one in the runtime directory. -/
theorem CheckDCSHooks.copies_updated (FilesDiffer : FileSystem → Path → Path → Bool)
    (hFD : ∀ fs a b contents, fs a = some (FileNode.regular contents) →
      fs b = some (FileNode.regular contents) → FilesDiffer fs a b = false)
    (rf : RuntimeFiles) (exeDir hooksDir : Path) (pass : Pass) (fs : FileSystem)
    (done : List HookEvent) (hdir : is_directory fs hooksDir = true)
    (hup : (CheckDCSHooks.copies rf exeDir hooksDir pass fs done).outcome =
      HookOutcome.updated) :
    GetHookInstallState FilesDiffer rf (CheckDCSHooks.copies rf exeDir hooksDir pass fs done).fs
        hooksDir exeDir = DCSHookInstallState.UP_TO_DATE ∧
      (∃ dll, (CheckDCSHooks.copies rf exeDir hooksDir pass fs done).fs (hooksDir ++ [rf.DCSWORLD_HOOK_DLL]) = some (FileNode.regular dll) ∧
        (CheckDCSHooks.copies rf exeDir hooksDir pass fs done).fs (exeDir ++ [rf.DCSWORLD_HOOK_DLL]) = some (FileNode.regular dll)) ∧
      (CheckDCSHooks.copies rf exeDir hooksDir pass fs done).fs (hooksDir ++ [rf.DCSWORLD_HOOK_LUA]) =
        (CheckDCSHooks.copies rf exeDir hooksDir pass fs done).fs (exeDir ++ [rf.DCSWORLD_HOOK_LUA]) := by
  unfold CheckDCSHooks.copies at hup ⊢
  simp only at hup ⊢
  cases h1 : (copy_file fs (exeDir ++ [rf.DCSWORLD_HOOK_LUA])
      (hooksDir ++ [rf.DCSWORLD_HOOK_LUA]) pass.copyLuaError).result with
  | false => simp [h1] at hup
  | true =>
    cases h2 : (copy_file (copy_file fs (exeDir ++ [rf.DCSWORLD_HOOK_LUA])
        (hooksDir ++ [rf.DCSWORLD_HOOK_LUA]) pass.copyLuaError).fs
        (exeDir ++ [rf.DCSWORLD_HOOK_DLL]) (hooksDir ++ [rf.DCSWORLD_HOOK_DLL])
        pass.copyDllError).result with
    | false => simp [h1, h2] at hup
    | true =>
      obtain ⟨⟨lua, hl1, hl2⟩, ⟨dll, hd1, hd2⟩, hrest⟩ :=
        copy_file_twice fs _ _ _ _ _ _ h1 h2
          (by intro h; simpa using h)
          (by
            intro h
            have hh := List.append_inj' h rfl
            rw [hh.1])
      have hdir2 := hrest hooksDir (by simp) (by simp)
      simp only [h1, h2, Bool.not_true, Bool.false_eq_true, if_false]
      refine ⟨?_, ⟨dll, hd2, hd1⟩, hl2.trans hl1.symm⟩
      unfold GetHookInstallState
      simp only
      have e1 := hFD _ _ _ _ hd1 hd2
      have e2 := hFD _ _ _ _ hl1 hl2
      simp [is_directory, is_regular_file, hdir2, hd2, e1, e2]
      simpa [is_directory] using hdir

/-- The copies of a pass end at `co_return` or with `continue`; what they add to
the trace holds no dialog and ends with a failure exactly when they end with
`continue`. -/
theorem CheckDCSHooks.copies_trace (rf : RuntimeFiles) (exeDir hooksDir : Path) (pass : Pass)
    (fs : FileSystem) (done : List HookEvent) :
    ((CheckDCSHooks.copies rf exeDir hooksDir pass fs done).outcome = HookOutcome.updated ∨
      (CheckDCSHooks.copies rf exeDir hooksDir pass fs done).outcome = HookOutcome.pending) ∧
    ∃ added, (CheckDCSHooks.copies rf exeDir hooksDir pass fs done).trace = done ++ added ∧
      (∀ x ∈ added, x.isDismissal = false) ∧
      ∀ b rest, dialogsFollowFailures b (added ++ rest) =
        dialogsFollowFailures
          (decide ((CheckDCSHooks.copies rf exeDir hooksDir pass fs done).outcome =
            HookOutcome.pending)) rest := by
  unfold CheckDCSHooks.copies
  simp only
  split_ifs
  · exact ⟨Or.inr rfl, _, rfl, by simp [HookEvent.isDismissal],
      by simp [dialogsFollowFailures, HookEvent.isFailure]⟩
  · exact ⟨Or.inr rfl, _, rfl, by simp [HookEvent.isDismissal],
      by simp [dialogsFollowFailures, HookEvent.isFailure]⟩
  · exact ⟨Or.inl rfl, _, rfl, by simp [HookEvent.isDismissal],
      by simp [dialogsFollowFailures, HookEvent.isFailure]⟩

/-- A pass ends at `co_return` or with `continue`; its trace holds no dialog and
ends with a failure exactly when the pass ends with `continue`. -/
theorem CheckDCSHooks.attempt_trace (rf : RuntimeFiles) (exeDir hooksDir : Path) (pass : Pass)
    (fs : FileSystem) :
    ((CheckDCSHooks.attempt rf exeDir hooksDir pass fs).outcome = HookOutcome.updated ∨
      (CheckDCSHooks.attempt rf exeDir hooksDir pass fs).outcome = HookOutcome.pending) ∧
    (∀ x ∈ (CheckDCSHooks.attempt rf exeDir hooksDir pass fs).trace, x.isDismissal = false) ∧
    ∀ b rest,
      dialogsFollowFailures b ((CheckDCSHooks.attempt rf exeDir hooksDir pass fs).trace ++ rest) =
        dialogsFollowFailures
          (decide ((CheckDCSHooks.attempt rf exeDir hooksDir pass fs).outcome =
            HookOutcome.pending)) rest := by
  simp only [CheckDCSHooks.attempt]
  split_ifs with h1 h2
  · obtain ⟨ho, added, ht, hd, hf⟩ := CheckDCSHooks.copies_trace rf exeDir hooksDir pass fs []
    rw [ht]
    exact ⟨ho, by simpa using hd, by simpa using hf⟩
  · exact ⟨Or.inr rfl, by simp [HookEvent.isDismissal],
      by simp [dialogsFollowFailures, HookEvent.isFailure]⟩
  · obtain ⟨ho, added, ht, hd, hf⟩ := CheckDCSHooks.copies_trace rf exeDir hooksDir pass
      (create_directories fs hooksDir pass.createDirectoriesError).fs
      [HookEvent.create_directories hooksDir true]
    rw [ht]
    refine ⟨ho, ?_, ?_⟩
    · intro x hx
      rcases List.mem_append.1 hx with hx | hx
      · simp only [List.mem_singleton] at hx
        subst hx
        rfl
      · exact hd x hx
    · intro b rest
      simp only [List.singleton_append, List.cons_append, dialogsFollowFailures]
      exact hf _ rest

/-- A pass that ends at `co_return` leaves the hooks up to date and the hook files
those of the runtime directory. -/
theorem CheckDCSHooks.attempt_updated (FilesDiffer : FileSystem → Path → Path → Bool)
    (hFD : ∀ fs a b contents, fs a = some (FileNode.regular contents) →
      fs b = some (FileNode.regular contents) → FilesDiffer fs a b = false)
    (rf : RuntimeFiles) (exeDir hooksDir : Path) (pass : Pass) (fs : FileSystem)
    (hup : (CheckDCSHooks.attempt rf exeDir hooksDir pass fs).outcome = HookOutcome.updated) :
    GetHookInstallState FilesDiffer rf (CheckDCSHooks.attempt rf exeDir hooksDir pass fs).fs
        hooksDir exeDir = DCSHookInstallState.UP_TO_DATE ∧
      (∃ dll, (CheckDCSHooks.attempt rf exeDir hooksDir pass fs).fs (hooksDir ++ [rf.DCSWORLD_HOOK_DLL]) = some (FileNode.regular dll) ∧
        (CheckDCSHooks.attempt rf exeDir hooksDir pass fs).fs (exeDir ++ [rf.DCSWORLD_HOOK_DLL]) = some (FileNode.regular dll)) ∧
      (CheckDCSHooks.attempt rf exeDir hooksDir pass fs).fs (hooksDir ++ [rf.DCSWORLD_HOOK_LUA]) =
        (CheckDCSHooks.attempt rf exeDir hooksDir pass fs).fs (exeDir ++ [rf.DCSWORLD_HOOK_LUA]) := by
  simp only [CheckDCSHooks.attempt] at hup ⊢
  split_ifs at hup ⊢ with h1 h2
  · exact CheckDCSHooks.copies_updated FilesDiffer hFD rf exeDir hooksDir pass fs [] h1 hup
  · refine CheckDCSHooks.copies_updated FilesDiffer hFD rf exeDir hooksDir pass _ _ ?_ hup
    apply create_directories_ok
    simpa using h2

/-- One round of the loop, field by field. -/
theorem CheckDCSHooks.loop_cons (rf : RuntimeFiles) (exeDir hooksDir : Path) (pass : Pass)
    (rest : List Pass) (fs : FileSystem) (ec : Nat) :
    (CheckDCSHooks.loop rf exeDir hooksDir (pass :: rest) fs ec).outcome =
      (if ec ≠ 0 ∧ pass.dialog ≠ ContentDialogResult.Primary then HookOutcome.dismissed
        else if (CheckDCSHooks.attempt rf exeDir hooksDir pass fs).outcome = HookOutcome.updated
          then HookOutcome.updated
        else (CheckDCSHooks.loop rf exeDir hooksDir rest
          (CheckDCSHooks.attempt rf exeDir hooksDir pass fs).fs
          (CheckDCSHooks.attempt rf exeDir hooksDir pass fs).ec).outcome) ∧
    (CheckDCSHooks.loop rf exeDir hooksDir (pass :: rest) fs ec).fs =
      (if ec ≠ 0 ∧ pass.dialog ≠ ContentDialogResult.Primary then fs
        else if (CheckDCSHooks.attempt rf exeDir hooksDir pass fs).outcome = HookOutcome.updated
          then (CheckDCSHooks.attempt rf exeDir hooksDir pass fs).fs
        else (CheckDCSHooks.loop rf exeDir hooksDir rest
          (CheckDCSHooks.attempt rf exeDir hooksDir pass fs).fs
          (CheckDCSHooks.attempt rf exeDir hooksDir pass fs).ec).fs) ∧
    (CheckDCSHooks.loop rf exeDir hooksDir (pass :: rest) fs ec).trace =
      (if ec ≠ 0 then [HookEvent.ShowAsync pass.dialog] else []) ++
        (if ec ≠ 0 ∧ pass.dialog ≠ ContentDialogResult.Primary then []
          else (CheckDCSHooks.attempt rf exeDir hooksDir pass fs).trace ++
            (if (CheckDCSHooks.attempt rf exeDir hooksDir pass fs).outcome = HookOutcome.updated
              then []
            else (CheckDCSHooks.loop rf exeDir hooksDir rest
              (CheckDCSHooks.attempt rf exeDir hooksDir pass fs).fs
              (CheckDCSHooks.attempt rf exeDir hooksDir pass fs).ec).trace)) := by
  simp only [CheckDCSHooks.loop]
  by_cases h0 : ec = 0 <;> by_cases h1 : pass.dialog = ContentDialogResult.Primary <;>
    by_cases h2 : (CheckDCSHooks.attempt rf exeDir hooksDir pass fs).outcome =
      HookOutcome.updated <;>
    simp [h0, h1, h2]

/-- A loop that ends at `co_return` leaves the hooks up to date and the hook files
those of the runtime directory. -/
theorem CheckDCSHooks.loop_updated (FilesDiffer : FileSystem → Path → Path → Bool)
    (hFD : ∀ fs a b contents, fs a = some (FileNode.regular contents) →
      fs b = some (FileNode.regular contents) → FilesDiffer fs a b = false)
    (rf : RuntimeFiles) (exeDir hooksDir : Path) (passes : List Pass) (fs : FileSystem)
    (ec : Nat)
    (hup : (CheckDCSHooks.loop rf exeDir hooksDir passes fs ec).outcome = HookOutcome.updated) :
    GetHookInstallState FilesDiffer rf (CheckDCSHooks.loop rf exeDir hooksDir passes fs ec).fs
        hooksDir exeDir = DCSHookInstallState.UP_TO_DATE ∧
      (∃ dll, (CheckDCSHooks.loop rf exeDir hooksDir passes fs ec).fs (hooksDir ++ [rf.DCSWORLD_HOOK_DLL]) = some (FileNode.regular dll) ∧
        (CheckDCSHooks.loop rf exeDir hooksDir passes fs ec).fs (exeDir ++ [rf.DCSWORLD_HOOK_DLL]) = some (FileNode.regular dll)) ∧
      (CheckDCSHooks.loop rf exeDir hooksDir passes fs ec).fs (hooksDir ++ [rf.DCSWORLD_HOOK_LUA]) =
        (CheckDCSHooks.loop rf exeDir hooksDir passes fs ec).fs (exeDir ++ [rf.DCSWORLD_HOOK_LUA]) := by
  induction passes generalizing fs ec with
  | nil => simp [CheckDCSHooks.loop] at hup
  | cons pass rest ih =>
    obtain ⟨e1, e2, _⟩ := CheckDCSHooks.loop_cons rf exeDir hooksDir pass rest fs ec
    rw [e1] at hup
    rw [e2]
    split_ifs at hup ⊢ with h1 h2
    · exact CheckDCSHooks.attempt_updated FilesDiffer hFD rf exeDir hooksDir pass fs h2
    · exact ih _ _ hup

/-- What the verdict `UP_TO_DATE` of `GetHookInstallState` rests on. -/
theorem GetHookInstallState_up_to_date (FilesDiffer : FileSystem → Path → Path → Bool)
    (rf : RuntimeFiles) (fs : FileSystem) (hooksDir exeDir : Path)
    (h : GetHookInstallState FilesDiffer rf fs hooksDir exeDir =
      DCSHookInstallState.UP_TO_DATE) :
    is_directory fs hooksDir = true ∧
    is_regular_file fs (hooksDir ++ [rf.DCSWORLD_HOOK_DLL]) = true ∧
    FilesDiffer fs (exeDir ++ [rf.DCSWORLD_HOOK_DLL]) (hooksDir ++ [rf.DCSWORLD_HOOK_DLL]) =
      false ∧
    FilesDiffer fs (exeDir ++ [rf.DCSWORLD_HOOK_LUA]) (hooksDir ++ [rf.DCSWORLD_HOOK_LUA]) =
      false := by
  unfold GetHookInstallState at h
  simp only at h
  split_ifs at h with h1 h2 h3
  simp only [Bool.not_eq_true', Bool.not_eq_true, Bool.not_eq_false, Bool.and_self,
    Bool.or_eq_true, not_or] at h1 h2 h3
  exact ⟨h1, h2, h3.1, h3.2⟩

/-- A loop ends at `co_return`, or awaits more, or was left at a dialog that was
answered with something other than "Retry". -/
theorem CheckDCSHooks.loop_outcome (rf : RuntimeFiles) (exeDir hooksDir : Path)
    (passes : List Pass) (fs : FileSystem) (ec : Nat) :
    (CheckDCSHooks.loop rf exeDir hooksDir passes fs ec).outcome = HookOutcome.updated ∨
    (CheckDCSHooks.loop rf exeDir hooksDir passes fs ec).outcome = HookOutcome.pending ∨
    ∃ x ∈ (CheckDCSHooks.loop rf exeDir hooksDir passes fs ec).trace, x.isDismissal = true := by
  induction passes generalizing fs ec with
  | nil => simp [CheckDCSHooks.loop]
  | cons pass rest ih =>
    obtain ⟨e1, _, e3⟩ := CheckDCSHooks.loop_cons rf exeDir hooksDir pass rest fs ec
    rw [e1, e3]
    by_cases h1 : ec ≠ 0 ∧ pass.dialog ≠ ContentDialogResult.Primary
    · right; right
      exact ⟨HookEvent.ShowAsync pass.dialog, by simp [h1.1],
        by simp [HookEvent.isDismissal, h1.2]⟩
    · by_cases h2 : (CheckDCSHooks.attempt rf exeDir hooksDir pass fs).outcome =
        HookOutcome.updated
      · left; simp [h1, h2]
      · simp only [h1, h2, if_false]
        rcases ih (CheckDCSHooks.attempt rf exeDir hooksDir pass fs).fs
          (CheckDCSHooks.attempt rf exeDir hooksDir pass fs).ec with h | h | ⟨x, hx, hd⟩
        · left; exact h
        · right; left; exact h
        · right; right
          exact ⟨x, List.mem_append_right _ (List.mem_append_right _ hx), hd⟩

/-- In a loop entered with no error pending, or straight after a failure, every
dialog comes straight after a failure. -/
theorem CheckDCSHooks.loop_dialogs (rf : RuntimeFiles) (exeDir hooksDir : Path)
    (passes : List Pass) (fs : FileSystem) (ec : Nat) (b : Bool) (hb : ec ≠ 0 → b = true) :
    dialogsFollowFailures b (CheckDCSHooks.loop rf exeDir hooksDir passes fs ec).trace = true := by
  induction passes generalizing fs ec b with
  | nil => simp [CheckDCSHooks.loop, dialogsFollowFailures]
  | cons pass rest ih =>
    obtain ⟨ho, _, hf⟩ := CheckDCSHooks.attempt_trace rf exeDir hooksDir pass fs
    obtain ⟨_, _, e3⟩ := CheckDCSHooks.loop_cons rf exeDir hooksDir pass rest fs ec
    rw [e3]
    have tail : ∀ b2, dialogsFollowFailures b2
        ((CheckDCSHooks.attempt rf exeDir hooksDir pass fs).trace ++
          (if (CheckDCSHooks.attempt rf exeDir hooksDir pass fs).outcome = HookOutcome.updated
            then []
          else (CheckDCSHooks.loop rf exeDir hooksDir rest
            (CheckDCSHooks.attempt rf exeDir hooksDir pass fs).fs
            (CheckDCSHooks.attempt rf exeDir hooksDir pass fs).ec).trace)) = true := by
      intro b2
      rw [hf]
      rcases ho with h | h
      · simp [h, dialogsFollowFailures]
      · simp only [h, decide_True]
        rw [if_neg (by simp)]
        exact ih _ _ true (fun _ => rfl)
    by_cases h0 : ec = 0
    · simp only [h0, ne_eq, not_true_eq_false, if_false, false_and, List.nil_append]
      exact tail b
    · have hbt := hb h0
      subst hbt
      by_cases h1 : pass.dialog = ContentDialogResult.Primary
      · simp only [ne_eq, h0, not_false_eq_true, if_true, h1, not_true_eq_false, and_false,
          if_false, List.singleton_append, dialogsFollowFailures, Bool.true_and]
        exact tail false
      · simp [h0, h1, dialogsFollowFailures]

/-- C1. The command-queue operations of a `Render` call that returns are exactly
a GPU-side `Wait` on the fence at `fenceValueIn`, then `ExecuteCommandLists` of
the command list, then a `Signal` of the fence, in that order; the fence is the
one stored for the supplied `fenceHandle`, the command list exists, and the
call makes no CPU-side wait. -/
theorem Render_queue_operations (c : RenderCall) (s : D3D12Renderer) (v : Nat)
    (h : (c.run s).result = Result.ok v) :
    (c.run s).trace.filter Event.isQueueOp =
      [Event.QueueWait (c.run s).state.mFence c.fenceValueIn,
        Event.QueueExecuteCommandLists [(c.run s).state.mCommandList],
        Event.QueueSignal (c.run s).state.mFence ((c.fenceValueIn + 1) % UINT64_MOD)] ∧
    (c.run s).state.mFenceHandle = c.fenceHandle ∧
    (c.run s).state.mCommandList ≠ none ∧
    (c.run s).trace.filter Event.isCpuWait = [] := by
  obtain ⟨s1, s2, s3, t1, t2, t3, h1, h2, h3, hT, hv, hR⟩ :=
    Render_ok c.env c.sourceTexture c.sourceRect c.destTextureHandle c.destTextureDimensions
      c.destRect c.fenceHandle c.fenceValueIn s v h
  have q1 := Render.importDestTexture_noQueueOp c.env c.destTextureHandle s
  have q2 := Render.importFence_noQueueOp c.env c.fenceHandle s1
  have q3 := Render.prepareCommandList_noQueueOp c.env s2
  rw [h1] at q1
  rw [h2] at q2
  rw [h3] at q3
  simp only at q1 q2 q3
  have hfh : s3.mFenceHandle = c.fenceHandle := by
    have e2 := Render.importFence_ok c.env c.fenceHandle s1 (by rw [h2])
    have e3 := (Render.prepareCommandList_frame c.env s2).2.2.1
    rw [h2] at e2
    rw [h3] at e3
    exact e3.trans e2
  have hcl : s3.mCommandList ≠ none := by
    have e3 := Render.prepareCommandList_ok c.env s2 (by rw [h3])
    rw [h3] at e3
    exact e3
  unfold RenderCall.run
  rw [hR]
  subst hv
  simp [List.filter_append, q1.1, q2.1, q3.1, q1.2.1, q2.2.1, q3.2.1, Event.isQueueOp,
    Event.isCpuWait, hfh, hcl]

/-- A call with new handles on a renderer that has not rendered yet returns, and
its queue operations are the three of C1. -/
theorem Render_queue_operations_witness :
    (Example.call.run Example.fresh).result = Result.ok 6 ∧
    ((Example.call.run Example.fresh).trace.filter Event.isQueueOp =
      [Event.QueueWait (Example.call.run Example.fresh).state.mFence Example.call.fenceValueIn,
        Event.QueueExecuteCommandLists [(Example.call.run Example.fresh).state.mCommandList],
        Event.QueueSignal (Example.call.run Example.fresh).state.mFence
          ((Example.call.fenceValueIn + 1) % UINT64_MOD)] ∧
    (Example.call.run Example.fresh).state.mFenceHandle = Example.call.fenceHandle ∧
    (Example.call.run Example.fresh).state.mCommandList ≠ none ∧
    (Example.call.run Example.fresh).trace.filter Event.isCpuWait = []) :=
  ⟨by decide, Render_queue_operations Example.call Example.fresh 6 (by decide)⟩

/-- C2. A `Render` call that returns, returns `fenceValueIn + 1` computed modulo
`2 ^ 64`; the last call it made is the `Signal` of the fence with that value,
and it signals no other value; the value exceeds `fenceValueIn` whenever
`fenceValueIn < 2 ^ 64 - 1`. -/
theorem Render_returns_signaled_value (c : RenderCall) (s : D3D12Renderer) (v : Nat)
    (h : (c.run s).result = Result.ok v) :
    v = (c.fenceValueIn + 1) % UINT64_MOD ∧
    (c.run s).trace.getLast? = some (Event.QueueSignal (c.run s).state.mFence v) ∧
    (∀ fence value, Event.QueueSignal fence value ∈ (c.run s).trace → value = v) ∧
    (c.fenceValueIn < UINT64_MOD - 1 → c.fenceValueIn < v) := by
  obtain ⟨s1, s2, s3, t1, t2, t3, h1, h2, h3, hT, hv, hR⟩ :=
    Render_ok c.env c.sourceTexture c.sourceRect c.destTextureHandle c.destTextureDimensions
      c.destRect c.fenceHandle c.fenceValueIn s v h
  have q1 := (Render.importDestTexture_noQueueOp c.env c.destTextureHandle s).1
  have q2 := (Render.importFence_noQueueOp c.env c.fenceHandle s1).1
  have q3 := (Render.prepareCommandList_noQueueOp c.env s2).1
  rw [h1] at q1
  rw [h2] at q2
  rw [h3] at q3
  simp only [List.filter_eq_nil_iff] at q1 q2 q3
  unfold RenderCall.run
  rw [hR]
  refine ⟨hv, ?_, ?_, ?_⟩
  · simp [List.getLast?_append]
  · intro fence value hmem
    simp only [List.mem_append] at hmem
    rcases hmem with hm | hm | hm | hm
    · exact absurd rfl (q1 _ hm)
    · exact absurd rfl (q2 _ hm)
    · exact absurd rfl (q3 _ hm)
    · simp at hm
      exact hm.2
  · intro hlt
    rw [hv, Nat.mod_eq_of_lt (by omega)]
    omega

/-- A call that returns, with `fenceValueIn = 5`: it returns and signals `6`. -/
theorem Render_returns_signaled_value_witness :
    (Example.call.run Example.fresh).result = Result.ok 6 ∧
    (6 = (Example.call.fenceValueIn + 1) % UINT64_MOD ∧
    (Example.call.run Example.fresh).trace.getLast? =
      some (Event.QueueSignal (Example.call.run Example.fresh).state.mFence 6) ∧
    (∀ fence value, Event.QueueSignal fence value ∈ (Example.call.run Example.fresh).trace →
      value = 6) ∧
    (Example.call.fenceValueIn < UINT64_MOD - 1 → Example.call.fenceValueIn < 6)) :=
  ⟨by decide, Render_returns_signaled_value Example.call Example.fresh 6 (by decide)⟩

/-- C3, as stated, fails for the fence. After a call with handles `1` and `2` has
returned, a call with handles `3` and `4` whose destination handle cannot be
opened throws before the fence handle is looked at: no fence is opened in that
call although the supplied fence handle `4` differs from the stored `2`. -/
theorem Render_fence_open_iff_differs_fails :
    ¬((Example.destOpenFails.run (Example.call.run Example.fresh).state).trace.filter
          (Event.isOpenAs Interface.ID3D12Fence) ≠ [] ↔
        Example.destOpenFails.fenceHandle ≠
          (Example.call.run Example.fresh).state.mFenceHandle) := by
  decide

/-- C3, amended. In every `Render` call, from whatever members the calls before
left behind: the destination texture is opened (once) if and only if the
supplied handle differs from the stored one; the fence is opened (once) if and
only if the supplied handle differs from the stored one and the destination
step did not throw; and once a call has returned, calls that keep supplying
its two handles open nothing, however many they are. -/
theorem Render_open_iff_handle_differs (c : RenderCall) (s : D3D12Renderer) :
    (c.run s).trace.filter (Event.isOpenAs Interface.ID3D12Resource) =
      (if c.destTextureHandle ≠ s.mDestHandle then
        [Event.OpenSharedHandle c.destTextureHandle Interface.ID3D12Resource] else []) ∧
    (c.run s).trace.filter (Event.isOpenAs Interface.ID3D12Fence) =
      (if c.fenceHandle ≠ s.mFenceHandle ∧
          ¬(c.destTextureHandle ≠ s.mDestHandle ∧
            FAILED (c.env.OpenSharedHandle c.destTextureHandle) = true) then
        [Event.OpenSharedHandle c.fenceHandle Interface.ID3D12Fence] else []) ∧
    (∀ (v : Nat) (calls : List RenderCall), (c.run s).result = Result.ok v →
      (∀ c2 ∈ calls, c2.destTextureHandle = c.destTextureHandle ∧
        c2.fenceHandle = c.fenceHandle) →
      ∀ r ∈ RenderAll (c.run s).state calls, ∀ riid,
        r.trace.filter (Event.isOpenAs riid) = []) := by
  refine ⟨(Render_opens c s).1, (Render_opens c s).2, ?_⟩
  intro v calls hok hsame
  have hh := Render_ok_handles c s v hok
  apply RenderAll_same_handles
  intro c2 hc2
  rw [hh.1, hh.2]
  exact hsame c2 hc2

/-- After `Example.call` has returned, two further calls with the same handles
(one of which throws at `Wait`) open nothing. -/
theorem Render_open_iff_handle_differs_witness :
    (Example.call.run Example.fresh).result = Result.ok 6 ∧
    (∀ c2 ∈ [Example.call, Example.waitFails],
      c2.destTextureHandle = Example.call.destTextureHandle ∧
        c2.fenceHandle = Example.call.fenceHandle) ∧
    ∀ r ∈ RenderAll (Example.call.run Example.fresh).state [Example.call, Example.waitFails],
      ∀ riid, r.trace.filter (Event.isOpenAs riid) = [] :=
  ⟨by decide, by decide,
    (Render_open_iff_handle_differs Example.call Example.fresh).2.2 6
      [Example.call, Example.waitFails] (by decide) (by decide)⟩

/-- C5, at the failing input: a call with destination handle `1` returns; a call
with destination handle `3` throws because `OpenSharedHandle` fails, and leaves
the stored handle `1` with no texture; a third call with handle `1` then opens
nothing, creates the render target view of a null texture, and returns. -/
theorem Render_stale_handle_after_failed_open :
    (Example.destOpenFails.run (Example.call.run Example.fresh).state).result =
      Result.hresult_error (-1) ∧
    (Example.destOpenFails.run (Example.call.run Example.fresh).state).state.mDestHandle = 1 ∧
    (Example.destOpenFails.run (Example.call.run Example.fresh).state).state.mDestTexture =
      none ∧
    (Example.call.run
      (Example.destOpenFails.run (Example.call.run Example.fresh).state).state).trace.take 2 =
      [Event.CreateRenderTargetView none, Event.CommandListReset] ∧
    (Example.call.run
      (Example.destOpenFails.run (Example.call.run Example.fresh).state).state).result =
      Result.ok 6 := by
  decide

/-- C6. When the GPU-side `Wait` is issued and fails, `Render` throws the failing
`HRESULT` to its caller, and the `Wait` is the only call the queue receives in
that call: it is not issued again, and neither `ExecuteCommandLists` nor
`Signal` is issued. -/
theorem Render_wait_failure_propagates (c : RenderCall) (s : D3D12Renderer)
    (fence : Option SharedObject) (value : Nat)
    (hissued : Event.QueueWait fence value ∈ (c.run s).trace)
    (hfail : FAILED c.env.Wait = true) :
    (c.run s).result = Result.hresult_error c.env.Wait ∧
    (c.run s).trace.filter Event.isQueueOp =
      [Event.QueueWait (c.run s).state.mFence c.fenceValueIn] := by
  unfold RenderCall.run at hissued ⊢
  rcases Render_submit_cases c.env c.sourceTexture c.sourceRect c.destTextureHandle
    c.destTextureDimensions c.destRect c.fenceHandle c.fenceValueIn s with hA | hB
  · have hnil := hA.2
    rw [List.filter_eq_nil_iff] at hnil
    exact absurd rfl (hnil _ hissued)
  · obtain ⟨s4, pre, hpre, hR⟩ := hB
    rw [hR] at hissued ⊢
    have hpre2 := hpre
    rw [List.filter_eq_nil_iff] at hpre2
    rw [Render.submit_eq] at hissued ⊢
    by_cases c1 : FAILED c.env.Close = true
    · simp only [c1, if_true, List.mem_append] at hissued
      rcases hissued with hm | hm
      · exact absurd rfl (hpre2 _ hm)
      · simp at hm
    · simp [c1, hfail, List.filter_append, hpre, Event.isQueueOp]

/-- A call in which `Wait` is issued and returns the failing `HRESULT` `-1`: the
call throws it, and the queue has received the `Wait` only. -/
theorem Render_wait_failure_propagates_witness :
    Event.QueueWait (some ⟨2, 1⟩) 5 ∈ (Example.waitFails.run Example.fresh).trace ∧
    FAILED Example.waitFails.env.Wait = true ∧
    ((Example.waitFails.run Example.fresh).result =
      Result.hresult_error Example.waitFails.env.Wait ∧
    (Example.waitFails.run Example.fresh).trace.filter Event.isQueueOp =
      [Event.QueueWait (Example.waitFails.run Example.fresh).state.mFence
        Example.waitFails.fenceValueIn]) :=
  ⟨by decide, by decide,
    Render_wait_failure_propagates Example.waitFails Example.fresh (some ⟨2, 1⟩) 5
      (by decide) (by decide)⟩

/-- C7. From an Idle sprite batch, any finite sequence of `Render` calls runs to
its end: no call is terminated for a contract violation (`Begin` while Began,
`Draw` or `End` while Idle), the sprite batch is Idle again after each call,
and each call that returns has called `Begin`, `Draw`, `End` on it, once each
and in that order; so a sequence of calls that all return calls
`Begin`, `Draw`, `End` once per `Render`. -/
theorem RenderAll_spriteBatch_cycles (s : D3D12Renderer) (calls : List RenderCall)
    (hIdle : s.mSpriteBatch.mTargetSize = none) :
    (RenderAll s calls).length = calls.length ∧
    (∀ r ∈ RenderAll s calls,
      r.result ≠ Result.fatal ∧ r.state.mSpriteBatch.mTargetSize = none ∧
      ∀ v, r.result = Result.ok v →
        r.trace.filterMap Event.spriteBatchCall =
          [SpriteBatchCall.Begin, SpriteBatchCall.Draw, SpriteBatchCall.End]) ∧
    ((∀ r ∈ RenderAll s calls, ∃ v, r.result = Result.ok v) →
      ((RenderAll s calls).map fun r => r.trace).flatten.filterMap Event.spriteBatchCall =
        (List.replicate calls.length
          [SpriteBatchCall.Begin, SpriteBatchCall.Draw, SpriteBatchCall.End]).flatten) := by
  induction calls generalizing s with
  | nil => simp [RenderAll]
  | cons c rest ih =>
    have hc := Render_idle c s hIdle
    have ih2 := ih (c.run s).state hc.2
    rw [RenderAll_cons, if_neg hc.1]
    refine ⟨by simp [ih2.1], ?_, ?_⟩
    · intro r hr
      rcases List.mem_cons.1 hr with rfl | hr
      · exact ⟨hc.1, hc.2, fun v hv => Render_ok_spriteBatchCalls c s v hv⟩
      · exact ih2.2.1 r hr
    · intro hall
      obtain ⟨v, hv⟩ := hall (c.run s) (List.mem_cons_self _ _)
      have hrest := ih2.2.2 (fun r hr => hall r (List.mem_cons_of_mem _ hr))
      simp only [List.map_cons, List.flatten_cons, List.filterMap_append, List.length_cons,
        List.replicate_succ]
      rw [hrest, Render_ok_spriteBatchCalls c s v hv]

/-- Two calls that return, from an Idle sprite batch: the sprite batch is called
`Begin`, `Draw`, `End`, `Begin`, `Draw`, `End`. -/
theorem RenderAll_spriteBatch_cycles_witness :
    Example.fresh.mSpriteBatch.mTargetSize = none ∧
    (RenderAll Example.fresh [Example.call, Example.otherHandles]).map (fun r => r.result) =
      [Result.ok 6, Result.ok 6] ∧
    ((RenderAll Example.fresh [Example.call, Example.otherHandles]).map
        fun r => r.trace).flatten.filterMap Event.spriteBatchCall =
      (List.replicate [Example.call, Example.otherHandles].length
        [SpriteBatchCall.Begin, SpriteBatchCall.Draw, SpriteBatchCall.End]).flatten :=
  ⟨by decide, by decide,
    (RenderAll_spriteBatch_cycles Example.fresh [Example.call, Example.otherHandles]
      (by decide)).2.2
      (fun r hr => ⟨6,
        (by decide : ∀ r ∈ RenderAll Example.fresh [Example.call, Example.otherHandles],
          r.result = Result.ok 6) r hr⟩)⟩

/-- C8, as stated, fails: the source rectangle of the sprite is the `sourceRect`
the caller supplies. `Example.call` draws the rectangle of 10 by 10 pixels at
`(10, 10)` of a source of 100 by 100 pixels, not the full source frame. -/
theorem Render_sprite_source_rect_not_full :
    ¬(∀ source sourceSize sourceRect destRect,
        Event.SpriteBatchDraw source sourceSize sourceRect destRect ∈
          (Example.call.run Example.fresh).trace →
        sourceRect = ⟨⟨0, 0⟩, Example.call.sourceTexture.mDimensions⟩) := by
  intro h
  have h1 := h 8 ⟨100, 100⟩ ⟨⟨10, 10⟩, ⟨10, 10⟩⟩ ⟨⟨10, 10⟩, ⟨10, 10⟩⟩ (by decide)
  revert h1
  decide

/-- C8, amended. The calls a `Render` call makes on the sprite batch are, in this
order and as far as the call gets: `Begin` with a target of size
`destTextureDimensions`, one `Draw` of the caller's `sourceRect` of the source
(whose size is given as the source texture's dimensions) into `destRect`, and
`End`. A call that returns has made all three. -/
theorem Render_sprite (c : RenderCall) (s : D3D12Renderer) :
    (c.run s).trace.filter Event.isSpriteBatchCall <+:
      [Event.SpriteBatchBegin c.destTextureDimensions,
        Event.SpriteBatchDraw c.sourceTexture.mShaderResourceViewGPUHandle
          c.sourceTexture.mDimensions c.sourceRect c.destRect,
        Event.SpriteBatchEnd] ∧
    ∀ v, (c.run s).result = Result.ok v →
      (c.run s).trace.filter Event.isSpriteBatchCall =
        [Event.SpriteBatchBegin c.destTextureDimensions,
          Event.SpriteBatchDraw c.sourceTexture.mShaderResourceViewGPUHandle
            c.sourceTexture.mDimensions c.sourceRect c.destRect,
          Event.SpriteBatchEnd] := by
  constructor
  · unfold RenderCall.run
    rw [Render_eq]
    simp only [RenderM.bind_trace, List.filter_append]
    have q1 := (Render.importDestTexture_noQueueOp c.env c.destTextureHandle s).2.2
    rcases h1 : Render.importDestTexture c.env c.destTextureHandle s with ⟨r1, s1, t1⟩
    rw [h1] at q1
    simp only at q1
    have q2 := (Render.importFence_noQueueOp c.env c.fenceHandle s1).2.2
    rcases h2 : Render.importFence c.env c.fenceHandle s1 with ⟨r2, s2, t2⟩
    rw [h2] at q2
    simp only at q2
    have q3 := (Render.prepareCommandList_noQueueOp c.env s2).2.2
    rcases h3 : Render.prepareCommandList c.env s2 with ⟨r3, s3, t3⟩
    rw [h3] at q3
    simp only at q3
    have q5 := fun s5 => Render.submit_noSpriteBatchCall c.env c.fenceValueIn s5
    cases r1 <;> cases r2 <;> cases r3 <;> cases hT : s3.mSpriteBatch.mTargetSize <;>
      simp [q1, q2, q3, q5, Render.composite_eq, hT, Event.isSpriteBatchCall,
        List.filter_append]
  · intro v h
    obtain ⟨s1, s2, s3, t1, t2, t3, h1, h2, h3, hT, hv, hR⟩ :=
      Render_ok c.env c.sourceTexture c.sourceRect c.destTextureHandle c.destTextureDimensions
        c.destRect c.fenceHandle c.fenceValueIn s v h
    have q1 := (Render.importDestTexture_noQueueOp c.env c.destTextureHandle s).2.2
    have q2 := (Render.importFence_noQueueOp c.env c.fenceHandle s1).2.2
    have q3 := (Render.prepareCommandList_noQueueOp c.env s2).2.2
    rw [h1] at q1
    rw [h2] at q2
    rw [h3] at q3
    simp only at q1 q2 q3
    unfold RenderCall.run
    rw [hR]
    simp [List.filter_append, q1, q2, q3, Event.isSpriteBatchCall]

/-- A call that returns: it has drawn the caller's rectangle of 10 by 10 pixels at
`(10, 10)` of the source into the destination rectangle, against a target of
50 by 50 pixels. -/
theorem Render_sprite_witness :
    (Example.call.run Example.fresh).result = Result.ok 6 ∧
    (Example.call.run Example.fresh).trace.filter Event.isSpriteBatchCall =
      [Event.SpriteBatchBegin Example.call.destTextureDimensions,
        Event.SpriteBatchDraw Example.call.sourceTexture.mShaderResourceViewGPUHandle
          Example.call.sourceTexture.mDimensions Example.call.sourceRect Example.call.destRect,
        Event.SpriteBatchEnd] :=
  ⟨by decide, (Render_sprite Example.call Example.fresh).2 6 (by decide)⟩

/-- C9. From an Idle sprite batch, `Begin`, then `N` calls of `Draw`, then `End`
succeed and flush exactly `ceil(N / 16)` batches (written
`(N + 15) / 16`), for every `N` and so for every `N > 16`; no flushed batch
holds more than 16 sprites, every flushed batch but the last holds exactly 16,
and the flushed batches, concatenated, are the sprites in the order of the
`Draw` calls. -/
theorem SpriteBatch_flushes_in_batches (sb : SpriteBatch) (size : PixelSize)
    (sprites : List Sprite) (hIdle : sb.mTargetSize = none) :
    ∃ batches,
      sb.BeginDrawAllEnd size sprites =
        some { mTargetSize := none, mSprites := [], mFlushed := sb.mFlushed ++ batches } ∧
      batches.length = (sprites.length + (MaxSpritesPerBatch - 1)) / MaxSpritesPerBatch ∧
      (∀ b ∈ batches, b.length ≤ MaxSpritesPerBatch) ∧
      (∀ b ∈ batches.dropLast, b.length = MaxSpritesPerBatch) ∧
      batches.flatten = sprites := by
  obtain ⟨batches, cur, h1, h2, h3, h4, h5⟩ :=
    SpriteBatch.DrawAll_spec sprites
      { sb with mTargetSize := some size, mSprites := [] } size rfl (by simp)
  have hlenEq := congrArg List.length h4
  simp only [List.length_append, List.nil_append, flatten_length_of_full batches h3] at hlenEq
  simp only [List.nil_append] at h4 h5
  by_cases hcur : cur = []
  · subst hcur
    refine ⟨batches, ?_, ?_, fun b hb => le_of_eq (h3 b hb),
      fun b hb => h3 b (List.dropLast_subset _ hb), by simpa using h4⟩
    · simp [SpriteBatch.BeginDrawAllEnd, SpriteBatch.Begin, hIdle, h1, SpriteBatch.End]
    · have hs : sprites = [] := by
        by_contra hne
        exact h5 hne rfl
      subst hs
      simp only [List.length_nil, Nat.add_zero] at hlenEq
      simp only [MaxSpritesPerBatch] at hlenEq ⊢
      simp only [List.length_nil]
      omega
  · refine ⟨batches ++ [cur], ?_, ?_, ?_, by simpa using h3, by simpa using h4⟩
    · simp [SpriteBatch.BeginDrawAllEnd, SpriteBatch.Begin, hIdle, h1, SpriteBatch.End,
        SpriteBatch.Flush, hcur]
    · have hpos : 0 < cur.length := List.length_pos.2 hcur
      simp only [MaxSpritesPerBatch] at hlenEq h2 ⊢
      simp only [List.length_append, List.length_singleton]
      omega
    · intro b hb
      rcases List.mem_append.1 hb with hb | hb
      · exact le_of_eq (h3 b hb)
      · simp only [List.mem_singleton] at hb
        subst hb
        exact h2

/-- Twenty sprites, more than the capacity of 16, drawn into an Idle sprite batch
between one `Begin` and one `End`. -/
theorem SpriteBatch_flushes_in_batches_witness :
    Example.fresh.mSpriteBatch.mTargetSize = none ∧
    MaxSpritesPerBatch < Example.sprites.length ∧
    ∃ batches,
      Example.fresh.mSpriteBatch.BeginDrawAllEnd ⟨1920, 1080⟩ Example.sprites =
        some { mTargetSize := none, mSprites := [],
               mFlushed := Example.fresh.mSpriteBatch.mFlushed ++ batches } ∧
      batches.length =
        (Example.sprites.length + (MaxSpritesPerBatch - 1)) / MaxSpritesPerBatch ∧
      (∀ b ∈ batches, b.length ≤ MaxSpritesPerBatch) ∧
      (∀ b ∈ batches.dropLast, b.length = MaxSpritesPerBatch) ∧
      batches.flatten = Example.sprites :=
  ⟨by decide, by decide,
    SpriteBatch_flushes_in_batches Example.fresh.mSpriteBatch ⟨1920, 1080⟩ Example.sprites
      (by decide)⟩

/-- C10, at the failing input `{1, 2}`: the array constructor yields
`(1, 1, 0, 1)`, the two-argument constructor `(1, 2, 0, 1)`, and the two
differ. -/
theorem Position_constructors_differ :
    Position.fromArray (⟨1, 2⟩ : Array2 ℚ) = ⟨1, 1, 0, 1⟩ ∧
    Position.fromXY (1 : ℚ) 2 = ⟨1, 2, 0, 1⟩ ∧
    Position.fromArray (⟨1, 2⟩ : Array2 ℚ) ≠ Position.fromXY 1 2 := by
  decide

/-- C11, at the failing input: the hooks directory is a directory and holds an
older hook DLL and no Lua hook. The second test of line 64 looks at the DLL
again, not at the Lua hook, so the function goes on to compare the files and
returns `OUT_OF_DATE`; whatever `FilesDiffer` is, it does not return
`NOT_INSTALLED` for this directory. -/
theorem GetHookInstallState_ignores_missing_lua :
    is_directory Example.luaMissing ["saved", "Scripts", "Hooks"] = true ∧
    is_regular_file Example.luaMissing ["saved", "Scripts", "Hooks", "hook.dll"] = true ∧
    is_regular_file Example.luaMissing ["saved", "Scripts", "Hooks", "hook.lua"] = false ∧
    GetHookInstallState Example.FilesDiffer Example.runtimeFiles Example.luaMissing
      ["saved", "Scripts", "Hooks"] ["exe"] = DCSHookInstallState.OUT_OF_DATE ∧
    ∀ FilesDiffer : FileSystem → Path → Path → Bool,
      GetHookInstallState FilesDiffer Example.runtimeFiles Example.luaMissing
        ["saved", "Scripts", "Hooks"] ["exe"] ≠ DCSHookInstallState.NOT_INSTALLED := by
  have h1 : is_directory Example.luaMissing ["saved", "Scripts", "Hooks"] = true := by decide
  have h2 : is_regular_file Example.luaMissing
      (["saved", "Scripts", "Hooks"] ++ [Example.runtimeFiles.DCSWORLD_HOOK_DLL]) = true := by
    decide
  refine ⟨h1, by decide, by decide, by decide, ?_⟩
  intro FilesDiffer
  unfold GetHookInstallState
  simp only [h1, h2, Bool.not_true, Bool.false_eq_true, if_false, Bool.and_self]
  split_ifs <;> simp

/-- C12. Where the saved-games path exists, a run of `CheckDCSHooks` that has
completed and in which no dialog was answered with anything but "Retry" leaves
both hook files of `<savedGamesPath>/Scripts/Hooks` identical to the ones in
the runtime directory: the hook DLL is there as a regular file with the
contents of the runtime directory's, the Lua hook path names exactly what the
runtime directory's names (the same regular file with the same contents
whenever the runtime directory holds one), and `GetHookInstallState` is
`UP_TO_DATE`. `FilesDiffer` is taken to tell the truth: it reports no
difference for two regular files with the same contents, and only for two
paths that name the same thing. And in every run, each showing of the dialog
comes straight after a `create_directories` or `copy_file` that failed, so
none comes before the first attempt. -/
theorem CheckDCSHooks_leaves_hooks_identical
    (FilesDiffer : FileSystem → Path → Path → Bool) (rf : RuntimeFiles)
    (exeDir savedGamesPath : Path) (existsError : Nat) (passes : List Pass)
    (fs : FileSystem) :
    ((∀ fs a b contents, fs a = some (FileNode.regular contents) →
        fs b = some (FileNode.regular contents) → FilesDiffer fs a b = false) →
      (∀ fs a b, FilesDiffer fs a b = false → fs a = fs b) →
      (path_exists fs savedGamesPath existsError).result = true →
      (CheckDCSHooks FilesDiffer rf exeDir savedGamesPath existsError passes fs).outcome ≠
        HookOutcome.pending →
      (∀ x ∈ (CheckDCSHooks FilesDiffer rf exeDir savedGamesPath existsError passes fs).trace,
        x.isDismissal = false) →
      GetHookInstallState FilesDiffer rf
          (CheckDCSHooks FilesDiffer rf exeDir savedGamesPath existsError passes fs).fs
          (savedGamesPath ++ ["Scripts", "Hooks"]) exeDir = DCSHookInstallState.UP_TO_DATE ∧
        (∃ dll,
          (CheckDCSHooks FilesDiffer rf exeDir savedGamesPath existsError passes fs).fs
              (savedGamesPath ++ ["Scripts", "Hooks"] ++ [rf.DCSWORLD_HOOK_DLL]) =
            some (FileNode.regular dll) ∧
          (CheckDCSHooks FilesDiffer rf exeDir savedGamesPath existsError passes fs).fs
              (exeDir ++ [rf.DCSWORLD_HOOK_DLL]) = some (FileNode.regular dll)) ∧
        (CheckDCSHooks FilesDiffer rf exeDir savedGamesPath existsError passes fs).fs
            (savedGamesPath ++ ["Scripts", "Hooks"] ++ [rf.DCSWORLD_HOOK_LUA]) =
          (CheckDCSHooks FilesDiffer rf exeDir savedGamesPath existsError passes fs).fs
            (exeDir ++ [rf.DCSWORLD_HOOK_LUA])) ∧
    dialogsFollowFailures false
      (CheckDCSHooks FilesDiffer rf exeDir savedGamesPath existsError passes fs).trace = true := by
  constructor
  · intro hFD hFD2 hex hdone hnever
    simp only [CheckDCSHooks, hex, Bool.not_true, Bool.false_eq_true, if_false] at hdone hnever ⊢
    split_ifs at hdone hnever ⊢ with hstate
    · obtain ⟨_, hreg, hdll, hlua⟩ := GetHookInstallState_up_to_date FilesDiffer rf fs _ _ hstate
      have edll := hFD2 _ _ _ hdll
      have elua := hFD2 _ _ _ hlua
      refine ⟨hstate, ?_, elua.symm⟩
      unfold is_regular_file at hreg
      rcases hnode : fs (savedGamesPath ++ ["Scripts", "Hooks"] ++ [rf.DCSWORLD_HOOK_DLL])
        with _ | (_ | dll)
      · rw [hnode] at hreg
        simp at hreg
      · rw [hnode] at hreg
        simp at hreg
      · exact ⟨dll, hnode, edll.trans hnode⟩
    · rcases CheckDCSHooks.loop_outcome rf exeDir (savedGamesPath ++ ["Scripts", "Hooks"])
        passes fs (path_exists fs savedGamesPath existsError).ec with h | h | ⟨x, hx, hd⟩
      · exact CheckDCSHooks.loop_updated FilesDiffer hFD rf exeDir _ passes fs _ h
      · exact absurd h hdone
      · rw [hnever x hx] at hd
        cases hd
  · simp only [CheckDCSHooks]
    split_ifs with hfound hstate
    · rfl
    · rfl
    · apply CheckDCSHooks.loop_dialogs
      intro hec
      exfalso
      apply hec
      unfold path_exists at hfound ⊢
      split_ifs at hfound ⊢
      · simp at hfound
      · rfl

/-- A run from a saved-games directory without hooks: the first attempt to write
the Lua hook fails, the user chooses "Retry", the second pass succeeds, and
both hook files are then those of the runtime directory. -/
theorem CheckDCSHooks_leaves_hooks_identical_witness :
    (∀ fs a b contents, fs a = some (FileNode.regular contents) →
      fs b = some (FileNode.regular contents) → Example.FilesDiffer fs a b = false) ∧
    (∀ fs a b, Example.FilesDiffer fs a b = false → fs a = fs b) ∧
    (path_exists Example.notInstalled ["saved"] 0).result = true ∧
    (CheckDCSHooks Example.FilesDiffer Example.runtimeFiles ["exe"] ["saved"] 0
      Example.retryOnce Example.notInstalled).outcome ≠ HookOutcome.pending ∧
    (∀ x ∈ (CheckDCSHooks Example.FilesDiffer Example.runtimeFiles ["exe"] ["saved"] 0
      Example.retryOnce Example.notInstalled).trace, x.isDismissal = false) ∧
    (GetHookInstallState Example.FilesDiffer Example.runtimeFiles
        (CheckDCSHooks Example.FilesDiffer Example.runtimeFiles ["exe"] ["saved"] 0
          Example.retryOnce Example.notInstalled).fs
        (["saved"] ++ ["Scripts", "Hooks"]) ["exe"] = DCSHookInstallState.UP_TO_DATE ∧
      (∃ dll,
        (CheckDCSHooks Example.FilesDiffer Example.runtimeFiles ["exe"] ["saved"] 0
            Example.retryOnce Example.notInstalled).fs
            (["saved"] ++ ["Scripts", "Hooks"] ++ [Example.runtimeFiles.DCSWORLD_HOOK_DLL]) =
          some (FileNode.regular dll) ∧
        (CheckDCSHooks Example.FilesDiffer Example.runtimeFiles ["exe"] ["saved"] 0
            Example.retryOnce Example.notInstalled).fs
            (["exe"] ++ [Example.runtimeFiles.DCSWORLD_HOOK_DLL]) =
          some (FileNode.regular dll)) ∧
      (CheckDCSHooks Example.FilesDiffer Example.runtimeFiles ["exe"] ["saved"] 0
          Example.retryOnce Example.notInstalled).fs
          (["saved"] ++ ["Scripts", "Hooks"] ++ [Example.runtimeFiles.DCSWORLD_HOOK_LUA]) =
        (CheckDCSHooks Example.FilesDiffer Example.runtimeFiles ["exe"] ["saved"] 0
          Example.retryOnce Example.notInstalled).fs
          (["exe"] ++ [Example.runtimeFiles.DCSWORLD_HOOK_LUA])) :=
  ⟨fun fs a b contents ha hb => by simp [Example.FilesDiffer, ha, hb],
    fun fs a b h => by simpa [Example.FilesDiffer] using h,
    by decide, by decide, by decide,
    (CheckDCSHooks_leaves_hooks_identical Example.FilesDiffer Example.runtimeFiles ["exe"]
      ["saved"] 0 Example.retryOnce Example.notInstalled).1
      (fun fs a b contents ha hb => by simp [Example.FilesDiffer, ha, hb])
      (fun fs a b h => by simpa [Example.FilesDiffer] using h)
      (by decide) (by decide) (by decide)⟩

end OpenKneeboard
